import Mathlib

/-!
RN2483 / RN2903 command handler (`rn2xx3_handler.cpp`)

A shallow embedding of the non-blocking command state machine of the RN2xx3
LoRaWAN driver, followed by theorems about it.

Modelling conventions

* An Arduino `String` is a list of characters (`Str`).
* The handler object, the serial stream it owns and the millisecond clock are
  one record, `rn2xx3_handler`; every method is a function that takes the
  record and returns the new record (together with the C++ return value).
* `millis()` is the field `millis`.  It is a 32-bit unsigned value; differences
  of clock readings are taken modulo `2 ^ 32`.  Executing code takes no time,
  except for `delay`, which advances the clock.
* The stream is a queue `rx` of bytes that have arrived and not yet been read,
  and the list `tx` of everything written so far.
* Functions of other translation units (`rn2xx3_helper`,
  `RN2xx3_received_types`) are parameters, collected in `Helper`.
-/

namespace RN2483

/-- An Arduino `String`. -/
abbrev Str := List Char

/-- The states of the handler, `rn2xx3_handler::RN_state`. -/
inductive RN_state where
  | idle
  | command_set_to_send
  | must_pause
  | wait_for_reply
  | wait_for_reply_rx2
  | reply_received
  | reply_received_rx2
  | reply_received_finished
  | timeout
  | max_attempt_reached
  | error
  | must_perform_init
  | duty_cycle_exceeded
  | invalid_char_read
  | tx_success
  | tx_success_with_rx
  | join_accepted
deriving DecidableEq, Repr

/-- The kind of the command being processed, `rn2xx3_handler::Active_cmd`. -/
inductive Active_cmd where
  | none
  | other
  | TX
  | join
deriving DecidableEq, Repr

/-- The reply categories, `RN2xx3_received_types::received_t`. -/
inductive received_t where
  | ok
  | accepted
  | invalid_param
  | not_joined
  | no_free_ch
  | silent
  | frame_counter_err_rejoin_needed
  | busy
  | mac_paused
  | invalid_data_len
  | mac_tx_ok
  | mac_rx
  | mac_err
  | radio_err
  | denied
  | keys_not_init
  | radio_rx
  | radio_tx_ok
  | UNKNOWN
deriving DecidableEq, Repr

/-- The flags of `RN2xx3_status` that the handler code reads or writes. -/
structure RN2xx3_status where
  Joined : Bool
  RejoinNeeded : Bool
  SecondReceiveWindowParamUpdated : Bool
deriving DecidableEq, Repr

/-- The Arduino `Stream` the handler talks to: `rx` holds the bytes that are
available for reading, oldest first; `tx` holds every character written. -/
structure Stream where
  rx : List Nat
  tx : Str
deriving DecidableEq, Repr

/-- The handler object together with the stream it owns and the clock. -/
structure rn2xx3_handler where
  _serial : Stream
  millis : Nat
  _state : RN_state
  _processing_cmd : Active_cmd
  _sendData : Str
  _receivedData : Str
  _rxMessenge : Str
  _lastError : Str
  _extensive_debug : Bool
  _invalid_char_read : Bool
  _busy_count : Nat
  _retry_count : Nat
  _start : Nat
  _timeout : Nat
  _start_prep : Nat
  _rxdelay1 : Nat
  _rxdelay2 : Nat
  Status : RN2xx3_status
deriving DecidableEq, Repr

/-- The functions of `rn2xx3_helper` and `RN2xx3_received_types` that the
handler calls.  Their source is not part of this development, so they are
parameters of everything below. -/
structure Helper where
  valid_char : Char → Bool
  base16encode : Str → Str
  determineReceivedDataType : Str → received_t

/-- Number of values of a 32-bit unsigned integer. -/
def u32 : Nat := 2 ^ 32

/-- Subtraction of 32-bit unsigned integers. -/
def sub32 (a b : Nat) : Nat := (a % u32 + u32 - b % u32) % u32

/-- Addition of 32-bit unsigned integers. -/
def add32 (a b : Nat) : Nat := (a + b) % u32

/-- The Arduino conversion `String(n)` of an unsigned number: its decimal text. -/
def decimal (n : Nat) : Str := (Nat.repr n).toList

/-- `String::endsWith`. -/
def endsWith (s suffix : Str) : Bool := suffix.isSuffixOf s

/-- `String::indexOf(ch, fromIndex)`: the position of the first `ch` at or
after `fromIndex`, or `-1`. -/
def indexOf (s : Str) (ch : Char) (fromIndex : Nat) : Int :=
  if fromIndex ≥ s.length then -1
  else
    match (s.drop fromIndex).indexOf? ch with
    | some i => ((fromIndex + i : Nat) : Int)
    | none => -1

/-- `String::substring(beginIndex)`: the text from `beginIndex` to the end. -/
def substring (s : Str) (beginIndex : Nat) : Str := s.drop beginIndex

/-- `delay(ms)`: the clock moves on by `ms`. -/
def delay (ms : Nat) (s : rn2xx3_handler) : rn2xx3_handler :=
  { s with millis := add32 s.millis ms }

/-- `rn2xx3_handler::command_finished`. -/
def command_finished (s : rn2xx3_handler) : Bool :=
  decide (s._processing_cmd = Active_cmd.none)

/-- `rn2xx3_handler::get_send_data`. -/
def get_send_data (s : rn2xx3_handler) : Str := s._sendData

/-- `rn2xx3_handler::get_received_data`. -/
def get_received_data (s : rn2xx3_handler) : Str := s._receivedData

/-- `rn2xx3_handler::get_rx_message`. -/
def get_rx_message (s : rn2xx3_handler) : Str := s._rxMessenge

/-- `rn2xx3_handler::get_state`. -/
def get_state (s : rn2xx3_handler) : RN_state := s._state

/-- `rn2xx3_handler::peekLastError`. -/
def peekLastError (s : rn2xx3_handler) : Str := s._lastError

/-- `rn2xx3_handler::getLastError`: returns the log and empties it. -/
def getLastError (s : rn2xx3_handler) : Str × rn2xx3_handler :=
  let res := s._lastError
  (res, { s with _lastError := [] })

/-- `rn2xx3_handler::setLastError`. -/
def setLastError (error : Str) (s : rn2xx3_handler) : rn2xx3_handler :=
  if s._extensive_debug then
    { s with _lastError :=
        s._lastError ++ ['\n'] ++ decimal s.millis ++ " : ".toList ++ error }
  else
    { s with _lastError := error }

/-- `rn2xx3_handler::set_timeout`. -/
def set_timeout (timeout : Nat) (s : rn2xx3_handler) : rn2xx3_handler :=
  { s with _timeout := timeout, _start := s.millis }

/-- `rn2xx3_handler::time_out_reached`. -/
def time_out_reached (s : rn2xx3_handler) : Bool :=
  decide (sub32 s.millis s._start ≥ s._timeout)

/-- `rn2xx3_handler::clearSerialBuffer`: reads until nothing is available. -/
def clearSerialBuffer (s : rn2xx3_handler) : rn2xx3_handler :=
  { s with _serial := { s._serial with rx := [] } }

/-- `_serial.print(text)`. -/
def serial_print (text : Str) (s : rn2xx3_handler) : rn2xx3_handler :=
  { s with _serial := { s._serial with tx := s._serial.tx ++ text } }

/-- `_serial.println()`: writes carriage return and line feed. -/
def serial_println (s : rn2xx3_handler) : rn2xx3_handler :=
  serial_print ['\r', '\n'] s

/-- The body of `rn2xx3_handler::set_state`.  The C++ function calls itself
(`invalid_char_read` → `command_set_to_send` → `idle`); `fuel` bounds the depth
of these calls. -/
def set_state_fuel : Nat → RN_state → rn2xx3_handler → rn2xx3_handler
  | 0, _, s => s
  | fuel + 1, state, s =>
    let was_processing_cmd : Bool := decide (s._processing_cmd ≠ Active_cmd.none)
    let s := { s with _state := state }
    let s :=
      match state with
      | RN_state.wait_for_reply | RN_state.wait_for_reply_rx2 =>
        let s := { s with _receivedData := [] }
        if state = RN_state.wait_for_reply_rx2 then
          match s._processing_cmd with
          | Active_cmd.join => set_timeout 10000 s
          | Active_cmd.TX => set_timeout (add32 s._rxdelay2 3000) s
          | _ => s
        else s
      | RN_state.reply_received | RN_state.reply_received_rx2 => s
      | RN_state.command_set_to_send =>
        if s._sendData.length = 0 then
          set_state_fuel fuel RN_state.idle s
        else
          let s := { s with _start_prep := s.millis }
          set_timeout 1500 s
      | RN_state.must_pause => set_timeout 1000 s
      | RN_state.invalid_char_read =>
        if s._processing_cmd = Active_cmd.other then
          set_state_fuel fuel RN_state.command_set_to_send s
        else
          { s with _processing_cmd := Active_cmd.none }
      | RN_state.idle =>
        { s with
          _processing_cmd := Active_cmd.none
          _sendData := []
          _receivedData := []
          _rxMessenge := []
          _lastError := [] }
      | RN_state.timeout
      | RN_state.max_attempt_reached
      | RN_state.error
      | RN_state.must_perform_init
      | RN_state.duty_cycle_exceeded =>
        { s with _processing_cmd := Active_cmd.none }
      | RN_state.tx_success
      | RN_state.tx_success_with_rx
      | RN_state.reply_received_finished
      | RN_state.join_accepted =>
        { s with _processing_cmd := Active_cmd.none }
    if was_processing_cmd && decide (s._processing_cmd = Active_cmd.none) then
      { s with
        _start := 0
        _invalid_char_read := false
        _busy_count := 0
        _retry_count := 0 }
    else s

/-- `rn2xx3_handler::set_state`.  Three levels of calls are the deepest the
C++ function can nest, see `set_state_fuel_enough`. -/
def set_state (state : RN_state) (s : rn2xx3_handler) : rn2xx3_handler :=
  set_state_fuel 3 state s

/-- `rn2xx3_handler::prepare_raw_command`. -/
def prepare_raw_command (command : Str) (s : rn2xx3_handler) :
    Bool × rn2xx3_handler :=
  if !command_finished s then
    (false, s)
  else
    let s := { s with
      _sendData := command
      _processing_cmd := Active_cmd.other
      _busy_count := 0
      _retry_count := 0 }
    let s := set_state RN_state.command_set_to_send s
    (!command_finished s, s)

/-- `rn2xx3_handler::prepare_tx_command`; `port` is a `uint8_t`. -/
def prepare_tx_command (hp : Helper) (command data : Str) (shouldEncode : Bool)
    (port : Fin 256) (s : rn2xx3_handler) : Bool × rn2xx3_handler :=
  let tmpCommand := command
  let tmpCommand :=
    if endsWith command "cnf ".toList then
      tmpCommand ++ decimal port.val ++ [' ']
    else tmpCommand
  let tmpCommand :=
    if shouldEncode then tmpCommand ++ hp.base16encode data
    else tmpCommand ++ data
  let r := prepare_raw_command tmpCommand s
  if !r.1 then
    (false, r.2)
  else
    (true, { r.2 with _processing_cmd := Active_cmd.TX })

/-- The loop of `rn2xx3_handler::read_line` over the bytes that are available:
`avail` is the queue of unread bytes. -/
def read_line_loop (hp : Helper) :
    List Nat → rn2xx3_handler → Bool × rn2xx3_handler
  | [], s => (false, { s with _serial := { s._serial with rx := [] } })
  | b :: rest, s =>
    let c : Int := (b : Int)
    let s := { s with _serial := { s._serial with rx := rest } }
    if c ≥ 0 then
      let character : Char := Char.ofNat (b % 256)
      if !hp.valid_char character then
        (false, { s with _invalid_char_read := true })
      else
        let s := { s with _receivedData := s._receivedData ++ [character] }
        if character = '\n' then
          (true, s)
        else
          read_line_loop hp rest s
    else
      read_line_loop hp rest s

/-- `rn2xx3_handler::read_line`. -/
def read_line (hp : Helper) (s : rn2xx3_handler) : Bool × rn2xx3_handler :=
  read_line_loop hp s._serial.rx s

/-- `rn2xx3_handler::handle_reply_received`. -/
def handle_reply_received (hp : Helper) (s : rn2xx3_handler) : rn2xx3_handler :=
  let received_datatype := hp.determineReceivedDataType s._receivedData
  let mustLogAsError : Bool := s._extensive_debug
  let mustLogAsError : Bool :=
    match received_datatype with
    | received_t.ok
    | received_t.UNKNOWN
    | received_t.accepted
    | received_t.mac_tx_ok
    | received_t.mac_rx
    | received_t.radio_rx
    | received_t.radio_tx_ok => mustLogAsError
    | _ => true
  let s :=
    if mustLogAsError then
      let error : Str := []
      let error :=
        if s._processing_cmd = Active_cmd.TX then error ++ "mac tx".toList
        else error ++ s._sendData
      let error := error ++ " -> ".toList
      let error := error ++ s._receivedData
      setLastError error s
    else s
  match received_datatype with
  | received_t.UNKNOWN => set_state RN_state.reply_received_finished s
  | received_t.ok =>
    let expect_rx2 : Bool :=
      decide (s._processing_cmd = Active_cmd.TX) ||
      decide (s._processing_cmd = Active_cmd.join)
    if decide (get_state s = RN_state.reply_received) && expect_rx2 then
      set_state RN_state.wait_for_reply_rx2 s
    else
      set_state RN_state.reply_received_finished s
  | received_t.invalid_param => set_state RN_state.error s
  | received_t.not_joined =>
    let s := { s with Status := { s.Status with Joined := false } }
    set_state RN_state.must_perform_init s
  | received_t.no_free_ch => set_state RN_state.duty_cycle_exceeded s
  | received_t.silent => set_state RN_state.must_perform_init s
  | received_t.frame_counter_err_rejoin_needed =>
    set_state RN_state.must_perform_init s
  | received_t.busy =>
    let s := { s with _busy_count := s._busy_count + 1 }
    if s._busy_count ≥ 10 then
      set_state RN_state.must_perform_init s
    else
      delay 1000 s
  | received_t.mac_paused => set_state RN_state.must_perform_init s
  | received_t.invalid_data_len => set_state RN_state.error s
  | received_t.mac_tx_ok => set_state RN_state.tx_success s
  | received_t.mac_rx =>
    let s := { s with
      _rxMessenge :=
        substring s._receivedData (indexOf s._receivedData ' ' 7 + 1).toNat }
    set_state RN_state.tx_success_with_rx s
  | received_t.mac_err => set_state RN_state.must_perform_init s
  | received_t.radio_err => set_state RN_state.must_perform_init s
  | received_t.accepted => set_state RN_state.join_accepted s
  | received_t.denied | received_t.keys_not_init => set_state RN_state.error s
  | received_t.radio_rx | received_t.radio_tx_ok => s

/-- `rn2xx3_handler::async_loop`: one step of the state machine.  Returns the
state after the step and the new handler. -/
def async_loop (hp : Helper) (s : rn2xx3_handler) : RN_state × rn2xx3_handler :=
  let s :=
    if s._state ≠ RN_state.must_pause then
      if !command_finished s && time_out_reached s then
        set_state RN_state.timeout s
      else s
    else s
  let s :=
    match get_state s with
    | RN_state.idle => s
    | RN_state.command_set_to_send =>
      let s := { s with _retry_count := s._retry_count + 1 }
      if s._retry_count > 10 then
        set_state RN_state.max_attempt_reached s
      else
        let s := { s with _receivedData := [] }
        let s := clearSerialBuffer s
        let s := serial_print (get_send_data s) s
        let s := serial_println s
        set_state RN_state.wait_for_reply s
    | RN_state.must_pause =>
      if time_out_reached s then
        set_state RN_state.command_set_to_send s
      else s
    | RN_state.wait_for_reply | RN_state.wait_for_reply_rx2 =>
      let r := read_line hp s
      let s := r.2
      let s :=
        if r.1 then
          match s._state with
          | RN_state.wait_for_reply => set_state RN_state.reply_received s
          | RN_state.wait_for_reply_rx2 => set_state RN_state.reply_received_rx2 s
          | _ => s
        else s
      if s._invalid_char_read then
        set_state RN_state.invalid_char_read s
      else s
    | RN_state.reply_received | RN_state.reply_received_rx2 =>
      handle_reply_received hp s
    | RN_state.timeout
    | RN_state.max_attempt_reached
    | RN_state.error
    | RN_state.must_perform_init
    | RN_state.duty_cycle_exceeded
    | RN_state.invalid_char_read => s
    | RN_state.tx_success
    | RN_state.tx_success_with_rx
    | RN_state.reply_received_finished
    | RN_state.join_accepted => s
  (get_state s, s)

/-- The methods `exec_join` calls that block on the transport
(`updateStatus`, `wait_command_finished` with its default time limit,
`saveUpdatedStatus`).  What they return depends on what the module sends
while they wait, so they are arbitrary functions here. -/
structure Blocking where
  updateStatus : rn2xx3_handler → Bool × rn2xx3_handler
  wait_command_finished : rn2xx3_handler → RN_state × rn2xx3_handler
  saveUpdatedStatus : rn2xx3_handler → Bool × rn2xx3_handler

/-- `rn2xx3_handler::exec_join`. -/
def exec_join (bl : Blocking) (useOTAA : Bool) (s : rn2xx3_handler) :
    Bool × rn2xx3_handler :=
  if !command_finished s then
    (false, s)
  else
    let s := (bl.updateStatus s).2
    let r := prepare_raw_command
      (if useOTAA then "mac join otaa".toList else "mac join abp".toList) s
    let s := r.2
    let s :=
      if r.1 then
        let s := { s with
          _processing_cmd := Active_cmd.join
          Status := { s.Status with Joined := false } }
        let w := bl.wait_command_finished s
        let s := w.2
        if w.1 = RN_state.join_accepted then
          let s := { s with Status := { s.Status with Joined := true } }
          (bl.saveUpdatedStatus s).2
        else s
      else s
    (s.Status.Joined, s)

/-- What the surroundings do between two steps of the state machine: the
clock shows `now` and the bytes `arrived` have come in on the stream. -/
structure Tick where
  now : Nat
  arrived : List Nat
deriving DecidableEq, Repr

/-- The effect of a `Tick` on the record: nothing of the handler object itself
changes. -/
def Tick.apply (e : Tick) (s : rn2xx3_handler) : rn2xx3_handler :=
  { s with
    millis := e.now
    _serial := { s._serial with rx := s._serial.rx ++ e.arrived } }

/-- Repeated calls of `async_loop`, one after each tick, until the command is
finished (`command_finished`) or the ticks are used up. -/
def drive (hp : Helper) : List Tick → rn2xx3_handler → rn2xx3_handler
  | [], s => s
  | e :: es, s =>
    if command_finished s then s
    else drive hp es (async_loop hp (e.apply s)).2

/-- The bytes of a text, as they travel over the stream. -/
def bytes (t : Str) : List Nat := t.map Char.toNat

/-- The hexadecimal digit of a value below 16, upper case. -/
def hexDigit (n : Nat) : Char :=
  if n < 10 then Char.ofNat (48 + n) else Char.ofNat (55 + n)

/-- Modelled from the spec: `rn2xx3_helper::base16encode`, whose source is
not part of this development.  The spec has the payload hex-encoded with two
hex digits per byte (`[0x41,0x42]` gives `4142`). -/
def base16encode (input : Str) : Str :=
  input.flatMap fun c => [hexDigit (c.toNat / 16 % 16), hexDigit (c.toNat % 16)]

/-- Modelled from the spec: `rn2xx3_helper::valid_char`, whose source is not
part of this development.  The spec speaks of an accepted character set
without listing it; this is the set of characters of the reply grammar of the
spec: letters, digits, underscore, space and the line end characters. -/
def valid_char (c : Char) : Bool :=
  c.isAlphanum || c = '_' || c = ' ' || c = '\r' || c = '\n'

/-- The text without leading and trailing white space (`String::trim`). -/
def trim (t : Str) : Str :=
  ((t.dropWhile Char.isWhitespace).reverse.dropWhile Char.isWhitespace).reverse

/-- Modelled from the spec: `RN2xx3_received_types::determineReceivedDataType`,
whose source is not part of this development.  The spec has it classify one
trimmed response line by exact literal, `mac_rx ` being a fixed prefix that is
followed by port and payload, and has every other text yield `UNKNOWN`. -/
def determineReceivedDataType (receivedData : Str) : received_t :=
  let line := trim receivedData
  if line = "ok".toList then received_t.ok
  else if line = "accepted".toList then received_t.accepted
  else if line = "invalid_param".toList then received_t.invalid_param
  else if line = "not_joined".toList then received_t.not_joined
  else if line = "no_free_ch".toList then received_t.no_free_ch
  else if line = "silent".toList then received_t.silent
  else if line = "frame_counter_err_rejoin_needed".toList then
    received_t.frame_counter_err_rejoin_needed
  else if line = "busy".toList then received_t.busy
  else if line = "mac_paused".toList then received_t.mac_paused
  else if line = "invalid_data_len".toList then received_t.invalid_data_len
  else if line = "mac_tx_ok".toList then received_t.mac_tx_ok
  else if "mac_rx ".toList.isPrefixOf line then received_t.mac_rx
  else if line = "mac_err".toList then received_t.mac_err
  else if line = "radio_err".toList then received_t.radio_err
  else if line = "denied".toList then received_t.denied
  else if line = "keys_not_init".toList then received_t.keys_not_init
  else if line = "radio_rx".toList then received_t.radio_rx
  else if line = "radio_tx_ok".toList then received_t.radio_tx_ok
  else received_t.UNKNOWN

/-- The helper functions as modelled above. -/
def specHelper : Helper :=
  { valid_char := valid_char
    base16encode := base16encode
    determineReceivedDataType := determineReceivedDataType }

/-- Modelled from the spec: the handler right after construction; the header
with the initial values of the members is not part of this development.  The
spec has `idle` as the initial state, with no command outstanding; the
constructor empties the stream. -/
def initial (clock : Nat) : rn2xx3_handler :=
  { _serial := { rx := [], tx := [] }
    millis := clock
    _state := RN_state.idle
    _processing_cmd := Active_cmd.none
    _sendData := []
    _receivedData := []
    _rxMessenge := []
    _lastError := []
    _extensive_debug := false
    _invalid_char_read := false
    _busy_count := 0
    _retry_count := 0
    _start := 0
    _timeout := 0
    _start_prep := 0
    _rxdelay1 := 0
    _rxdelay2 := 0
    Status := { Joined := false, RejoinNeeded := false,
                SecondReceiveWindowParamUpdated := false } }

/-! ## Auxiliary definitions for the statements and proofs -/

/-- The states in which no command is outstanding. -/
def quiescent : List RN_state :=
  [RN_state.idle, RN_state.reply_received_finished, RN_state.timeout,
   RN_state.max_attempt_reached, RN_state.error, RN_state.must_perform_init,
   RN_state.duty_cycle_exceeded, RN_state.invalid_char_read, RN_state.tx_success,
   RN_state.tx_success_with_rx, RN_state.join_accepted]

/-- The invariant that ties the kind of the active command to the state. -/
def KindInv (s : rn2xx3_handler) : Prop :=
  s._processing_cmd = Active_cmd.none ↔ s._state ∈ quiescent

/-- The handlers that can be reached from an idle one, with no command
outstanding, by calls of `prepare_raw_command`, `prepare_tx_command` and
`async_loop`, the clock and the stream changing at will in between. -/
inductive Reachable (hp : Helper) : rn2xx3_handler → Prop where
  | start (s : rn2xx3_handler) :
      s._state = RN_state.idle → s._processing_cmd = Active_cmd.none → Reachable hp s
  | tick (e : Tick) (s : rn2xx3_handler) : Reachable hp s → Reachable hp (e.apply s)
  | raw (command : Str) (s : rn2xx3_handler) :
      Reachable hp s → Reachable hp (prepare_raw_command command s).2
  | tx (command data : Str) (shouldEncode : Bool) (port : Fin 256) (s : rn2xx3_handler) :
      Reachable hp s →
      Reachable hp (prepare_tx_command hp command data shouldEncode port s).2
  | loop (s : rn2xx3_handler) : Reachable hp s → Reachable hp (async_loop hp s).2

/-- The error log after the first half of `handle_reply_received`. -/
def reply_log (hp : Helper) (s : rn2xx3_handler) : Str :=
  let received_datatype := hp.determineReceivedDataType s._receivedData
  let mustLogAsError : Bool :=
    match received_datatype with
    | received_t.ok
    | received_t.UNKNOWN
    | received_t.accepted
    | received_t.mac_tx_ok
    | received_t.mac_rx
    | received_t.radio_rx
    | received_t.radio_tx_ok => s._extensive_debug
    | _ => true
  if mustLogAsError then
    (setLastError
      ((if s._processing_cmd = Active_cmd.TX then "mac tx".toList else s._sendData)
        ++ " -> ".toList ++ s._receivedData) s)._lastError
  else s._lastError

/-- The second half of `handle_reply_received`: what is done with a reply of
category `received_datatype`. -/
def reply_policy (received_datatype : received_t) (s : rn2xx3_handler) :
    rn2xx3_handler :=
  match received_datatype with
  | received_t.UNKNOWN => set_state RN_state.reply_received_finished s
  | received_t.ok =>
    if s._state = RN_state.reply_received ∧
        (s._processing_cmd = Active_cmd.TX ∨ s._processing_cmd = Active_cmd.join) then
      set_state RN_state.wait_for_reply_rx2 s
    else
      set_state RN_state.reply_received_finished s
  | received_t.invalid_param => set_state RN_state.error s
  | received_t.not_joined =>
    set_state RN_state.must_perform_init
      { s with Status := { s.Status with Joined := false } }
  | received_t.no_free_ch => set_state RN_state.duty_cycle_exceeded s
  | received_t.silent => set_state RN_state.must_perform_init s
  | received_t.frame_counter_err_rejoin_needed =>
    set_state RN_state.must_perform_init s
  | received_t.busy =>
    if s._busy_count + 1 ≥ 10 then
      set_state RN_state.must_perform_init { s with _busy_count := s._busy_count + 1 }
    else
      delay 1000 { s with _busy_count := s._busy_count + 1 }
  | received_t.mac_paused => set_state RN_state.must_perform_init s
  | received_t.invalid_data_len => set_state RN_state.error s
  | received_t.mac_tx_ok => set_state RN_state.tx_success s
  | received_t.mac_rx =>
    set_state RN_state.tx_success_with_rx
      { s with
        _rxMessenge :=
          substring s._receivedData (indexOf s._receivedData ' ' 7 + 1).toNat }
  | received_t.mac_err => set_state RN_state.must_perform_init s
  | received_t.radio_err => set_state RN_state.must_perform_init s
  | received_t.accepted => set_state RN_state.join_accepted s
  | received_t.denied | received_t.keys_not_init => set_state RN_state.error s
  | received_t.radio_rx | received_t.radio_tx_ok => s

/-- The first part of `async_loop`: the check of the deadline. -/
def deadline_check (s : rn2xx3_handler) : rn2xx3_handler :=
  if s._state ≠ RN_state.must_pause then
    if !command_finished s && time_out_reached s then
      set_state RN_state.timeout s
    else s
  else s

/-- The second part of `async_loop`: the work done for the current state. -/
def dispatch (hp : Helper) (s : rn2xx3_handler) : rn2xx3_handler :=
  match s._state with
  | RN_state.command_set_to_send =>
    if s._retry_count + 1 > 10 then
      set_state RN_state.max_attempt_reached { s with _retry_count := s._retry_count + 1 }
    else
      set_state RN_state.wait_for_reply
        { s with
          _retry_count := s._retry_count + 1
          _receivedData := []
          _serial := { rx := [], tx := s._serial.tx ++ s._sendData ++ ['\r', '\n'] } }
  | RN_state.must_pause =>
    if time_out_reached s then set_state RN_state.command_set_to_send s else s
  | RN_state.wait_for_reply =>
    let r := read_line hp s
    let s1 := if r.1 then set_state RN_state.reply_received r.2 else r.2
    if s1._invalid_char_read then set_state RN_state.invalid_char_read s1 else s1
  | RN_state.wait_for_reply_rx2 =>
    let r := read_line hp s
    let s1 := if r.1 then set_state RN_state.reply_received_rx2 r.2 else r.2
    if s1._invalid_char_read then set_state RN_state.invalid_char_read s1 else s1
  | RN_state.reply_received | RN_state.reply_received_rx2 =>
    handle_reply_received hp s
  | _ => s

/-- The command text that `prepare_tx_command` builds. -/
def tx_text (hp : Helper) (command data : Str) (shouldEncode : Bool)
    (port : Fin 256) : Str :=
  command ++ (if endsWith command "cnf ".toList then decimal port.val ++ [' '] else [])
    ++ (if shouldEncode then hp.base16encode data else data)

/-- An example: the command `sys get ver` was given to a new handler at clock
reading 0 and written, the reply line `ok` has been read completely, and the
clock now shows 1500. -/
def late_reply : rn2xx3_handler :=
  Tick.apply { now := 1500, arrived := [] }
    (drive specHelper
      [{ now := 0, arrived := [] }, { now := 20, arrived := bytes "ok\r\n".toList }]
      (prepare_raw_command "sys get ver".toList (initial 0)).2)

/-- The handler after a command has come to its end in state `st`. -/
def finish (st : RN_state) (s : rn2xx3_handler) : rn2xx3_handler :=
  { s with
    _state := st
    _processing_cmd := Active_cmd.none
    _start := 0
    _invalid_char_read := false
    _busy_count := 0
    _retry_count := 0 }

/-- The states that `set_state` treats as the end of a command, `idle` and
`invalid_char_read` apart. -/
def finals : List RN_state :=
  [RN_state.timeout, RN_state.max_attempt_reached, RN_state.error,
   RN_state.must_perform_init, RN_state.duty_cycle_exceeded, RN_state.tx_success,
   RN_state.tx_success_with_rx, RN_state.reply_received_finished,
   RN_state.join_accepted]

/-- The command of the handler has come to its end in state `st`. -/
def ended_in (st : RN_state) (s : rn2xx3_handler) : Prop :=
  s._state = st ∧ s._processing_cmd = Active_cmd.none

/-- A reply line without its line feed: characters the handler accepts, none
of them a line feed, each one byte. -/
def line_body (hp : Helper) (body : Str) : Prop :=
  ∀ c ∈ body, hp.valid_char c = true ∧ c ≠ '\n' ∧ c.toNat < 256

/-- An example: a new handler is given the transmit command of payload
`hello`; the module answers `ok` and then `mac_rx 1 48656C6C6F`, each line
ended by carriage return and line feed; the handler is stepped until the
command is finished. -/
def downlink_run : rn2xx3_handler :=
  drive specHelper
    [{ now := 10, arrived := [] },
     { now := 50, arrived := bytes "ok\r\n".toList },
     { now := 60, arrived := [] },
     { now := 2000, arrived := bytes "mac_rx 1 48656C6C6F\r\n".toList },
     { now := 2010, arrived := [] }]
    (prepare_tx_command specHelper "mac tx cnf ".toList "hello".toList true 1
      (initial 0)).2

/-- An example: the command `mac set dr 9` was given to a new handler and
written, and the complete reply line `invalid_param` has been read. -/
def rejected_reply : rn2xx3_handler :=
  Tick.apply { now := 30, arrived := [] }
    (drive specHelper
      [{ now := 0, arrived := [] },
       { now := 20, arrived := bytes "invalid_param\r\n".toList }]
      (prepare_raw_command "mac set dr 9".toList (initial 0)).2)

/-- An example: the module has reported a receive delay 2 of 4294967295 ms,
the largest 32-bit value; a transmit command was given at clock reading 0 and
written, and the complete reply line `ok` has been read. -/
def tx_ok_reply : rn2xx3_handler :=
  Tick.apply { now := 60, arrived := [] }
    (drive specHelper
      [{ now := 10, arrived := [] }, { now := 50, arrived := bytes "ok\r\n".toList }]
      (prepare_tx_command specHelper "mac tx cnf ".toList "hello".toList true 1
        { initial 0 with _rxdelay2 := 4294967295 }).2)

/-- The handler as `exec_join` has it when it starts to wait for the outcome
of a join on a new handler: the command `mac join otaa` is pending, the kind is
`join` and the Joined flag is cleared. -/
def join_pending : rn2xx3_handler :=
  { (prepare_raw_command "mac join otaa".toList (initial 0)).2 with
    _processing_cmd := Active_cmd.join
    Status := { (prepare_raw_command "mac join otaa".toList (initial 0)).2.Status with
      Joined := false } }

/-- A join that the module answers with `ok` and then with one single line
`busy`, after which it is silent.  The clock readings of the later steps are
those that the `delay(1000)` of the handler itself brings about, 10 ms added for
each step. -/
def one_busy_line : List Tick :=
  [{ now := 0, arrived := [] },
   { now := 20, arrived := bytes "ok\r\n".toList },
   { now := 30, arrived := [] },
   { now := 100, arrived := bytes "busy\r\n".toList },
   { now := 110, arrived := [] },
   { now := 1120, arrived := [] },
   { now := 2130, arrived := [] },
   { now := 3140, arrived := [] },
   { now := 4150, arrived := [] },
   { now := 5160, arrived := [] },
   { now := 6170, arrived := [] },
   { now := 7180, arrived := [] },
   { now := 8190, arrived := [] },
   { now := 9200, arrived := [] }]

/-- An example of the blocking methods: they return at once and change
nothing. -/
def no_wait : Blocking :=
  { updateStatus := fun s => (true, s)
    wait_command_finished := fun s => (s._state, s)
    saveUpdatedStatus := fun s => (false, s) }

/-- The log after an operation, compared with the log `l` before it: emptied on
the way to `idle`, or `l` itself, or `l'`. -/
def log_after (l l' : Str) (s : rn2xx3_handler) : Prop :=
  (s._state = RN_state.idle ∧ s._lastError = []) ∨ s._lastError = l ∨ s._lastError = l'

/-- A pending command on a silent stream: not yet written (the stream output
is still `tx0`; bytes that came in earlier may wait unread) or written once and
waiting for the reply, no byte unread. -/
def silent_pending (tx0 cmd : Str) (start tmo : Nat) (s : rn2xx3_handler) : Prop :=
  s._processing_cmd ≠ Active_cmd.none ∧ s._invalid_char_read = false ∧
  s._start = start ∧ s._timeout = tmo ∧ s._sendData = cmd ∧
  ((s._state = RN_state.command_set_to_send ∧ s._retry_count < 10 ∧ s._serial.tx = tx0) ∨
   (s._state = RN_state.wait_for_reply ∧ s._serial.rx = [] ∧
    s._serial.tx = tx0 ++ cmd ++ ['\r', '\n']))

/-- The clock readings of one submission that the module answers with one
line: when the command is given, when it is written, when the reply line has
arrived and is read, and when the reply is handled. -/
structure Round where
  submitted : Nat
  written : Nat
  delivered : Nat
  handled : Nat
deriving DecidableEq, Repr

/-- One submission of `command` at the clock readings `r`, answered by the
stream with the text `line`, and stepped until the command is finished. -/
def submit_answered (hp : Helper) (command line : Str) (r : Round)
    (s : rn2xx3_handler) : rn2xx3_handler :=
  drive hp
    [{ now := r.written, arrived := [] },
     { now := r.delivered, arrived := bytes line },
     { now := r.handled, arrived := [] }]
    (prepare_raw_command command
      (Tick.apply { now := r.submitted, arrived := [] } s)).2

/-- Submissions of the same command one after the other, each answered by the
same text. -/
def submissions (hp : Helper) (command line : Str) :
    List Round → rn2xx3_handler → rn2xx3_handler
  | [], s => s
  | r :: rs, s => submissions hp command line rs (submit_answered hp command line r s)

/-- The deadlines of a round are kept: every step is taken less than 1500 ms
after the command was given. -/
abbrev Round.in_time (r : Round) : Prop :=
  sub32 r.written r.submitted < 1500 ∧ sub32 r.delivered r.submitted < 1500 ∧
  sub32 r.handled r.submitted < 1500

/-- An example: the command `sys get ver` is given to a new handler at clock
reading 0 and the stream stays silent; the handler is stepped at 10, 500, 1000,
1500 and 2000 ms. -/
def silent_run : rn2xx3_handler :=
  drive specHelper
    [{ now := 10, arrived := [] }, { now := 500, arrived := [] },
     { now := 1000, arrived := [] }, { now := 1500, arrived := [] },
     { now := 2000, arrived := [] }]
    (prepare_raw_command "sys get ver".toList (initial 0)).2

/-- Ten rounds, 2000 ms apart: the command is written 10 ms after it is given,
the reply is read after 30 ms and handled after 40 ms. -/
def ten_rounds : List Round :=
  (List.range 10).map fun k =>
    { submitted := 2000 * k, written := 2000 * k + 10, delivered := 2000 * k + 30,
      handled := 2000 * k + 40 }

/-- An example: the same transmit command text is submitted ten times to a new
handler and the module answers `no_free_ch` each time. -/
def ten_no_free_ch : rn2xx3_handler :=
  submissions specHelper "mac tx cnf 1 68656C6C6F".toList "no_free_ch\r\n".toList
    ten_rounds (initial 0)

/-- An example: a new handler whose error log holds the text `first`, verbose
logging being off. -/
def logged_first : rn2xx3_handler :=
  setLastError "first".toList (initial 0)

/-- What a part of a step leaves alone: the stream output, and, as long as the
command stays outstanding, its text and the retry counter. -/
def keeps (a b : rn2xx3_handler) : Prop :=
  b._serial.tx = a._serial.tx ∧
  (b._processing_cmd ≠ Active_cmd.none →
    b._retry_count = a._retry_count ∧ b._sendData = a._sendData ∧
    a._processing_cmd ≠ Active_cmd.none)

/-- The stream output after the command `cmd` has been written `k` times. -/
def written (tx0 cmd : Str) (k : Nat) : Str :=
  tx0 ++ (List.replicate k (cmd ++ ['\r', '\n'])).flatten

/-- The retry counter counts the writes of the pending command, of which
there are at most 10. -/
def write_count (tx0 cmd : Str) (s : rn2xx3_handler) : Prop :=
  ∃ k, k ≤ 10 ∧ s._serial.tx = written tx0 cmd k ∧
    (s._processing_cmd ≠ Active_cmd.none → s._retry_count = k ∧ s._sendData = cmd)

/-- A generic command whose first reply is spoilt by one byte outside the
accepted set (0xFF); when the command has been written again the module answers
with the line `ok`, and is silent from then on.  The steps are 10 ms apart. -/
def framing_error_ticks : List Tick :=
  [{ now := 10, arrived := [] },
   { now := 20, arrived := [255] },
   { now := 30, arrived := [] },
   { now := 40, arrived := bytes "ok\r\n".toList },
   { now := 50, arrived := [] }, { now := 60, arrived := [] },
   { now := 70, arrived := [] }, { now := 80, arrived := [] },
   { now := 90, arrived := [] }, { now := 100, arrived := [] },
   { now := 110, arrived := [] }, { now := 120, arrived := [] },
   { now := 130, arrived := [] }, { now := 140, arrived := [] },
   { now := 150, arrived := [] }, { now := 160, arrived := [] },
   { now := 170, arrived := [] }, { now := 180, arrived := [] },
   { now := 190, arrived := [] }, { now := 200, arrived := [] },
   { now := 210, arrived := [] }]

/-- The command `sys get ver` given to a new handler at clock reading 0. -/
def pending_sys_get_ver : rn2xx3_handler :=
  (prepare_raw_command "sys get ver".toList (initial 0)).2

/-- A reply the handler has no action for: the line in the buffer is
classified as `radio_rx` or `radio_tx_ok`, the state is `reply_received` or
`reply_received_rx2`, verbose logging is off, and the deadline is `tmo` ms from
`start`. -/
def unhandled_reply (hp : Helper) (start tmo : Nat) (s : rn2xx3_handler) : Prop :=
  (s._state = RN_state.reply_received ∨ s._state = RN_state.reply_received_rx2) ∧
  (hp.determineReceivedDataType s._receivedData = received_t.radio_rx ∨
    hp.determineReceivedDataType s._receivedData = received_t.radio_tx_ok) ∧
  s._extensive_debug = false ∧ s._start = start ∧ s._timeout = tmo

/-- An example: the generic command `radio tx 48656C6C6F` was given to a new
handler at clock reading 0 and written, the complete reply line `radio_tx_ok`
has been read, and the clock shows 60. -/
def radio_reply : rn2xx3_handler :=
  Tick.apply { now := 60, arrived := [] }
    (drive specHelper
      [{ now := 10, arrived := [] },
       { now := 50, arrived := bytes "radio_tx_ok\r\n".toList }]
      (prepare_raw_command "radio tx 48656C6C6F".toList (initial 0)).2)

/-- An example: a deadline of 1500 ms is armed at clock reading 4294967000,
296 ms before the clock wraps around; the clock now shows 1204, which is 1500 ms
later. -/
def wrapped_deadline : rn2xx3_handler :=
  Tick.apply { now := 1204, arrived := [] }
    (set_timeout 1500 (initial 4294967000))

/-! ## Lemmas -/

/-- The nested calls of `set_state` never go deeper than three levels: more
fuel than 3 changes nothing. -/
theorem set_state_fuel_enough (n : Nat) (st : RN_state) (s : rn2xx3_handler) :
    set_state_fuel (n + 3) st s = set_state st s := by
  cases st <;> simp [set_state, set_state_fuel]

theorem set_state_kindInv (st : RN_state) (s : rn2xx3_handler)
    (h : st ∈ quiescent ∨ s._processing_cmd ≠ Active_cmd.none) :
    KindInv (set_state st s) := by
  cases st <;> cases hk : s._processing_cmd <;>
    simp_all [KindInv, quiescent, set_state, set_state_fuel, set_timeout] <;>
    (try split) <;> simp_all

theorem read_line_loop_frame (hp : Helper) (l : List Nat) (s : rn2xx3_handler) :
    (read_line_loop hp l s).2._state = s._state ∧
    (read_line_loop hp l s).2._processing_cmd = s._processing_cmd := by
  induction l generalizing s with
  | nil => simp [read_line_loop]
  | cons b rest ih =>
    simp only [read_line_loop]
    split
    · split
      · simp
      · split
        · simp
        · rw [(ih _).1, (ih _).2]; simp
    · rw [(ih _).1, (ih _).2]; simp

theorem read_line_frame (hp : Helper) (s : rn2xx3_handler) :
    (read_line hp s).2._state = s._state ∧
    (read_line hp s).2._processing_cmd = s._processing_cmd :=
  read_line_loop_frame hp _ s

theorem setLastError_eq (e : Str) (s : rn2xx3_handler) :
    setLastError e s = { s with _lastError := (setLastError e s)._lastError } := by
  unfold setLastError; split <;> rfl

theorem handle_reply_received_eq (hp : Helper) (s : rn2xx3_handler) :
    handle_reply_received hp s =
      reply_policy (hp.determineReceivedDataType s._receivedData)
        { s with _lastError := reply_log hp s } := by
  cases s with
  | mk ser ms st kind sd rd rxm le dbg icr bc rc start tmo sp d1 d2 status =>
  cases hc : hp.determineReceivedDataType rd <;> cases dbg <;>
    simp [handle_reply_received, reply_policy, reply_log, hc, get_state, setLastError]

theorem async_loop_eq (hp : Helper) (s : rn2xx3_handler) :
    async_loop hp s =
      ((dispatch hp (deadline_check s))._state, dispatch hp (deadline_check s)) := by
  unfold async_loop deadline_check
  simp only [get_state]
  generalize (if s._state ≠ RN_state.must_pause then
      if (!command_finished s && time_out_reached s) = true then
        set_state RN_state.timeout s
      else s
    else s) = s1
  have hrl := read_line_frame hp s1
  cases hs : s1._state <;>
    simp [dispatch, hs, clearSerialBuffer, serial_print, serial_println, get_send_data,
      hrl.1]

theorem prepare_tx_command_eq (hp : Helper) (command data : Str)
    (shouldEncode : Bool) (port : Fin 256) (s : rn2xx3_handler) :
    prepare_tx_command hp command data shouldEncode port s =
      if (prepare_raw_command (tx_text hp command data shouldEncode port) s).1 = true then
        (true, { (prepare_raw_command (tx_text hp command data shouldEncode port) s).2 with
                  _processing_cmd := Active_cmd.TX })
      else
        (false, (prepare_raw_command (tx_text hp command data shouldEncode port) s).2) := by
  have ht : tx_text hp command data shouldEncode port =
      (if shouldEncode = true then
        (if endsWith command "cnf ".toList = true then command ++ decimal port.val ++ [' ']
          else command) ++ hp.base16encode data
       else
        (if endsWith command "cnf ".toList = true then command ++ decimal port.val ++ [' ']
          else command) ++ data) := by
    unfold tx_text
    cases shouldEncode <;> cases endsWith command "cnf ".toList <;> simp
  unfold prepare_tx_command
  simp only [← ht]
  cases (prepare_raw_command (tx_text hp command data shouldEncode port) s).1 <;> simp

theorem prepare_raw_command_accepts (s : rn2xx3_handler) (command : Str)
    (hkind : s._processing_cmd = Active_cmd.none) (hcmd : command ≠ []) :
    prepare_raw_command command s =
      (true, { s with
        _state := RN_state.command_set_to_send
        _processing_cmd := Active_cmd.other
        _sendData := command
        _busy_count := 0
        _retry_count := 0
        _start_prep := s.millis
        _timeout := 1500
        _start := s.millis }) := by
  simp [prepare_raw_command, command_finished, set_state, set_state_fuel, set_timeout,
    hkind, hcmd]

theorem prepare_raw_command_rejects (s : rn2xx3_handler) (command : Str)
    (hkind : s._processing_cmd ≠ Active_cmd.none) :
    prepare_raw_command command s = (false, s) := by
  simp [prepare_raw_command, command_finished, hkind]

theorem prepare_raw_command_true (command : Str) (s : rn2xx3_handler)
    (h : (prepare_raw_command command s).1 = true) :
    (prepare_raw_command command s).2._state = RN_state.command_set_to_send := by
  unfold prepare_raw_command at h ⊢
  split
  · next hf => simp [hf] at h
  · next hf =>
    simp only [hf] at h
    by_cases hc : command = []
    · subst hc
      simp [command_finished, set_state, set_state_fuel] at h
    · simp [set_state, set_state_fuel, set_timeout, hc]

/-! ### The kind of the active command and the state -/

theorem kind_of_kindInv (s : rn2xx3_handler) (hinv : KindInv s)
    (hst : s._state ∉ quiescent) : s._processing_cmd ≠ Active_cmd.none :=
  fun h => hst (hinv.1 h)

theorem reply_policy_kindInv (cls : received_t) (s : rn2xx3_handler)
    (hinv : KindInv s) : KindInv (reply_policy cls s) := by
  by_cases hq : s._state ∈ quiescent
  · have hk : s._processing_cmd = Active_cmd.none := hinv.2 hq
    cases cls <;> simp only [reply_policy] <;>
      first
        | exact hinv
        | (apply set_state_kindInv; left; decide)
        | (split <;> first
            | (apply set_state_kindInv; left; decide)
            | (exfalso; simp_all; done)
            | (simpa [KindInv, delay] using hinv))
  · have hk := kind_of_kindInv s hinv hq
    cases cls <;> simp only [reply_policy] <;>
      first
        | exact hinv
        | (apply set_state_kindInv; left; decide)
        | (split <;> first
            | (apply set_state_kindInv; left; decide)
            | (apply set_state_kindInv; right; exact hk)
            | (simpa [KindInv, delay] using hinv))

theorem handle_reply_received_kindInv (hp : Helper) (s : rn2xx3_handler)
    (hinv : KindInv s) : KindInv (handle_reply_received hp s) := by
  rw [handle_reply_received_eq]
  exact reply_policy_kindInv _ _ hinv

theorem deadline_check_kindInv (s : rn2xx3_handler) (hinv : KindInv s) :
    KindInv (deadline_check s) := by
  unfold deadline_check
  split
  · split
    · exact set_state_kindInv _ _ (Or.inl (by simp [quiescent]))
    · exact hinv
  · exact hinv

theorem flag_step_kindInv (s : rn2xx3_handler) (hinv : KindInv s) :
    KindInv (if s._invalid_char_read = true then
      set_state RN_state.invalid_char_read s else s) := by
  split
  · exact set_state_kindInv _ _ (Or.inl (by simp [quiescent]))
  · exact hinv

theorem dispatch_kindInv (hp : Helper) (s : rn2xx3_handler) (hinv : KindInv s) :
    KindInv (dispatch hp s) := by
  have hrl := read_line_frame hp s
  have hrinv : KindInv (read_line hp s).2 := by
    unfold KindInv; rw [hrl.1, hrl.2]; exact hinv
  have hk : s._state ∉ quiescent →
      (read_line hp s).2._processing_cmd ≠ Active_cmd.none := by
    intro h; rw [hrl.2]; exact kind_of_kindInv s hinv h
  unfold dispatch
  split
  · next hs =>
    have hk := kind_of_kindInv s hinv (by simp [hs, quiescent])
    split
    · exact set_state_kindInv _ _ (Or.inl (by simp [quiescent]))
    · exact set_state_kindInv _ _ (Or.inr hk)
  · next hs =>
    have hk := kind_of_kindInv s hinv (by simp [hs, quiescent])
    split
    · exact set_state_kindInv _ _ (Or.inr hk)
    · exact hinv
  · next hs =>
    have hk := hk (by simp [hs, quiescent])
    have h1 : KindInv (if (read_line hp s).1 = true then
        set_state RN_state.reply_received (read_line hp s).2 else (read_line hp s).2) := by
      split
      · exact set_state_kindInv _ _ (Or.inr hk)
      · exact hrinv
    exact flag_step_kindInv _ h1
  · next hs =>
    have hk := hk (by simp [hs, quiescent])
    have h1 : KindInv (if (read_line hp s).1 = true then
        set_state RN_state.reply_received_rx2 (read_line hp s).2
        else (read_line hp s).2) := by
      split
      · exact set_state_kindInv _ _ (Or.inr hk)
      · exact hrinv
    exact flag_step_kindInv _ h1
  · exact handle_reply_received_kindInv hp s hinv
  · exact handle_reply_received_kindInv hp s hinv
  · exact hinv

theorem async_loop_kindInv (hp : Helper) (s : rn2xx3_handler) (hinv : KindInv s) :
    KindInv (async_loop hp s).2 := by
  rw [async_loop_eq]
  exact dispatch_kindInv hp _ (deadline_check_kindInv s hinv)

theorem prepare_raw_command_kindInv (command : Str) (s : rn2xx3_handler)
    (hinv : KindInv s) : KindInv (prepare_raw_command command s).2 := by
  unfold prepare_raw_command
  split
  · exact hinv
  · exact set_state_kindInv _ _ (Or.inr (by simp))

theorem prepare_tx_command_kindInv (hp : Helper) (command data : Str)
    (shouldEncode : Bool) (port : Fin 256) (s : rn2xx3_handler) (hinv : KindInv s) :
    KindInv (prepare_tx_command hp command data shouldEncode port s).2 := by
  rw [prepare_tx_command_eq]
  split
  · next h =>
    have h1 := prepare_raw_command_true _ s h
    simp [KindInv, h1, quiescent]
  · exact prepare_raw_command_kindInv _ s hinv

theorem reachable_kindInv (hp : Helper) (s : rn2xx3_handler) (h : Reachable hp s) :
    KindInv s := by
  induction h with
  | start s hs hk => simp [KindInv, hs, hk, quiescent]
  | tick e s _ ih => exact ih
  | raw command s _ ih => exact prepare_raw_command_kindInv command s ih
  | tx command data enc port s _ ih =>
    exact prepare_tx_command_kindInv hp command data enc port s ih
  | loop s _ ih => exact async_loop_kindInv hp s ih

/-! ### Single steps -/

theorem deadline_check_unexpired (s : rn2xx3_handler)
    (h : sub32 s.millis s._start < s._timeout) : deadline_check s = s := by
  simp [deadline_check, time_out_reached, h]

theorem async_loop_unexpired (hp : Helper) (s : rn2xx3_handler)
    (h : sub32 s.millis s._start < s._timeout) :
    async_loop hp s = ((dispatch hp s)._state, dispatch hp s) := by
  rw [async_loop_eq, deadline_check_unexpired s h]

theorem dispatch_send (hp : Helper) (s : rn2xx3_handler)
    (hs : s._state = RN_state.command_set_to_send) (hr : s._retry_count < 10) :
    dispatch hp s =
      { s with
        _state := RN_state.wait_for_reply
        _retry_count := s._retry_count + 1
        _receivedData := []
        _serial := { rx := [], tx := s._serial.tx ++ s._sendData ++ ['\r', '\n'] } } := by
  have hr2 : ¬ (10 < s._retry_count + 1) := by omega
  cases hk : s._processing_cmd <;>
    simp [dispatch, hs, hr2, set_state, set_state_fuel, hk]

theorem read_line_loop_line (hp : Helper) (body : Str) (rest : List Nat)
    (hnl : hp.valid_char '\n' = true)
    (hbody : line_body hp body)
    (s : rn2xx3_handler) :
    read_line_loop hp (bytes (body ++ ['\n']) ++ rest) s =
      (true, { s with
        _receivedData := s._receivedData ++ (body ++ ['\n'])
        _serial := { s._serial with rx := rest } }) := by
  induction body generalizing s with
  | nil =>
    have h10 : Char.ofNat 10 = '\n' := rfl
    simp [bytes, read_line_loop, h10, hnl]
  | cons c cs ih =>
    have hc := hbody c (by simp)
    have hcs : line_body hp cs :=
      fun d hd => hbody d (by simp [hd])
    have hch : Char.ofNat (c.toNat % 256) = c := by
      rw [Nat.mod_eq_of_lt hc.2.2]; exact Char.ofNat_toNat c
    have := ih hcs
    simp [bytes, read_line_loop, hch, hc.1, hc.2.1] at this ⊢
    rw [this]
    simp

theorem read_line_line (hp : Helper) (body : Str) (rest : List Nat)
    (hnl : hp.valid_char '\n' = true)
    (hbody : line_body hp body)
    (s : rn2xx3_handler) (hrx : s._serial.rx = bytes (body ++ ['\n']) ++ rest) :
    read_line hp s =
      (true, { s with
        _receivedData := s._receivedData ++ (body ++ ['\n'])
        _serial := { s._serial with rx := rest } }) := by
  unfold read_line
  rw [hrx]
  exact read_line_loop_line hp body rest hnl hbody s

theorem dispatch_read (hp : Helper) (body : Str) (rest : List Nat)
    (hnl : hp.valid_char '\n' = true)
    (hbody : line_body hp body)
    (s : rn2xx3_handler) (hrx : s._serial.rx = bytes (body ++ ['\n']) ++ rest)
    (hflag : s._invalid_char_read = false) :
    (s._state = RN_state.wait_for_reply →
      dispatch hp s = { s with
        _state := RN_state.reply_received
        _receivedData := s._receivedData ++ (body ++ ['\n'])
        _serial := { s._serial with rx := rest } }) ∧
    (s._state = RN_state.wait_for_reply_rx2 →
      dispatch hp s = { s with
        _state := RN_state.reply_received_rx2
        _receivedData := s._receivedData ++ (body ++ ['\n'])
        _serial := { s._serial with rx := rest } }) := by
  have h := read_line_line hp body rest hnl hbody s hrx
  constructor <;> intro hs <;> cases hk : s._processing_cmd <;>
    simp [dispatch, hs, h, set_state, set_state_fuel, hflag, hk]

theorem set_state_final (st : RN_state) (s : rn2xx3_handler) (hst : st ∈ finals)
    (hk : s._processing_cmd ≠ Active_cmd.none) :
    set_state st s = finish st s := by
  cases st <;> simp [finals] at hst <;>
    simp [set_state, set_state_fuel, finish, hk]

theorem dispatch_reply (hp : Helper) (s : rn2xx3_handler)
    (hs : s._state = RN_state.reply_received ∨ s._state = RN_state.reply_received_rx2) :
    dispatch hp s =
      reply_policy (hp.determineReceivedDataType s._receivedData)
        { s with _lastError := reply_log hp s } := by
  rw [← handle_reply_received_eq]
  rcases hs with hs | hs <;> simp [dispatch, hs]

theorem tx_text_ne_nil (hp : Helper) (data : Str) (port : Fin 256) :
    tx_text hp "mac tx cnf ".toList data true port ≠ [] := by
  simp [tx_text]

/-! ### The transmit scenario -/

/-- A transmit command answered by a line of category `ok` and then by a line
of category `second`, which ends the command in state `st`. -/
theorem tx_scenario (hp : Helper) (s0 : rn2xx3_handler) (data body1 body2 : Str)
    (port : Fin 256) (second : received_t) (st : RN_state) (t1 t2 t3 t4 t5 : Nat)
    (hkind : s0._processing_cmd = Active_cmd.none)
    (hflag : s0._invalid_char_read = false)
    (hnl : hp.valid_char '\n' = true)
    (hbody1 : line_body hp body1) (hbody2 : line_body hp body2)
    (hok : hp.determineReceivedDataType (body1 ++ ['\n']) = received_t.ok)
    (hsecond : hp.determineReceivedDataType (body2 ++ ['\n']) = second)
    (hpolicy : ∀ s : rn2xx3_handler, s._processing_cmd ≠ Active_cmd.none →
      reply_policy second s = finish st s)
    (h1 : sub32 t1 s0.millis < 1500) (h2 : sub32 t2 s0.millis < 1500)
    (h3 : sub32 t3 s0.millis < 1500)
    (h4 : sub32 t4 t3 < add32 s0._rxdelay2 3000)
    (h5 : sub32 t5 t3 < add32 s0._rxdelay2 3000) :
    (prepare_tx_command hp "mac tx cnf ".toList data true port s0).1 = true ∧
    ended_in st (drive hp
      [{ now := t1, arrived := [] }, { now := t2, arrived := bytes (body1 ++ ['\n']) },
       { now := t3, arrived := [] }, { now := t4, arrived := bytes (body2 ++ ['\n']) },
       { now := t5, arrived := [] }]
      (prepare_tx_command hp "mac tx cnf ".toList data true port s0).2) := by
  have hne := tx_text_ne_nil hp data port
  rw [prepare_tx_command_eq, prepare_raw_command_accepts s0 _ hkind hne]
  simp only [if_true]
  refine ⟨trivial, ?_⟩
  -- step 1: the command is written
  rw [drive]
  simp only [command_finished]
  rw [if_neg (by simp)]
  rw [async_loop_unexpired _ _ (by simpa [Tick.apply] using h1)]
  rw [dispatch_send _ _ (by simp [Tick.apply]) (by simp [Tick.apply])]
  simp only [Tick.apply]
  -- step 2: the first line is read
  rw [drive]
  simp only [command_finished]
  rw [if_neg (by simp)]
  rw [async_loop_unexpired _ _ (by simpa [Tick.apply] using h2)]
  rw [(dispatch_read hp body1 [] hnl hbody1 _ (by simp [Tick.apply])
        (by simpa [Tick.apply] using hflag)).1 (by simp [Tick.apply])]
  simp only [Tick.apply]
  -- step 3: the first line is `ok`, the second reply is awaited
  rw [drive]
  simp only [command_finished]
  rw [if_neg (by simp)]
  rw [async_loop_unexpired _ _ (by simpa [Tick.apply] using h3)]
  rw [dispatch_reply _ _ (by simp [Tick.apply])]
  simp only [Tick.apply, List.nil_append, hok, reply_policy]
  rw [if_pos (by simp)]
  simp only [set_state, set_state_fuel, set_timeout]
  simp only [reduceCtorEq, decide_False, decide_True, Bool.and_false, Bool.false_eq_true,
    if_false, if_true, ne_eq, not_false_eq_true, Bool.true_and]
  -- step 4: the second line is read
  rw [drive]
  simp only [command_finished]
  rw [if_neg (by simp)]
  rw [async_loop_unexpired _ _ (by simpa [Tick.apply] using h4)]
  rw [(dispatch_read hp body2 [] hnl hbody2 _ (by simp [Tick.apply])
        (by simpa [Tick.apply] using hflag)).2 (by simp [Tick.apply])]
  simp only [Tick.apply]
  -- step 5: the second line is classified
  rw [drive]
  simp only [command_finished]
  rw [if_neg (by simp)]
  rw [async_loop_unexpired _ _ (by simpa [Tick.apply] using h5)]
  rw [dispatch_reply _ _ (by simp [Tick.apply])]
  simp only [Tick.apply, List.nil_append, hsecond]
  rw [hpolicy _ (by simp)]
  simp [drive, finish, command_finished, ended_in]

/-! ### The payload of a downlink -/

theorem indexOf_after (p rest : Str) (hp : ' ' ∉ p) :
    indexOf ("mac_rx ".toList ++ p ++ ' ' :: rest) ' ' 7 = ((7 + p.length : Nat) : Int) := by
  have h7 : ("mac_rx ".toList ++ p ++ ' ' :: rest).drop 7 = p ++ ' ' :: rest := by
    simp
  have hlen : ¬ (7 ≥ ("mac_rx ".toList ++ p ++ ' ' :: rest).length) := by
    simp
  unfold indexOf
  rw [if_neg hlen, h7]
  have hnone : List.findIdx? (fun x => x == ' ') p = none := by
    rw [List.findIdx?_eq_none_iff]
    intro x hx
    have : x ≠ ' ' := fun h => hp (h ▸ hx)
    simpa using this
  have : (p ++ ' ' :: rest).indexOf? ' ' = some p.length := by
    unfold List.indexOf?
    rw [List.findIdx?_append, hnone, List.findIdx?_cons]
    simp
  rw [this]

theorem mac_rx_payload (p rest : Str) (hp : ' ' ∉ p) :
    substring ("mac_rx ".toList ++ p ++ ' ' :: rest)
      (indexOf ("mac_rx ".toList ++ p ++ ' ' :: rest) ' ' 7 + 1).toNat = rest := by
  rw [indexOf_after p rest hp]
  have : (((7 + p.length : Nat) : Int) + 1).toNat = 7 + p.length + 1 := by
    omega
  rw [this]
  unfold substring
  have h : "mac_rx ".toList ++ p ++ ' ' :: rest =
      ("mac_rx ".toList ++ p ++ [' ']) ++ rest := by
    simp
  rw [h, List.drop_left']
  simp
  omega

/-- What the handler keeps as the last downlink: for a buffered line
`mac_rx <p> <rest>` everything after the second space, the characters that end
the line included. -/
theorem mac_rx_step (hp : Helper) (s : rn2xx3_handler) (p rest : Str)
    (hs : s._state = RN_state.reply_received ∨ s._state = RN_state.reply_received_rx2)
    (hkind : s._processing_cmd ≠ Active_cmd.none)
    (hdeadline : sub32 s.millis s._start < s._timeout)
    (hline : s._receivedData = "mac_rx ".toList ++ p ++ ' ' :: rest)
    (hport : ' ' ∉ p)
    (hclass : hp.determineReceivedDataType s._receivedData = received_t.mac_rx) :
    (async_loop hp s).1 = RN_state.tx_success_with_rx ∧
    get_rx_message (async_loop hp s).2 = rest := by
  rw [async_loop_unexpired hp s hdeadline, dispatch_reply hp s hs, hclass]
  simp only [reply_policy]
  rw [set_state_final _ _ (by decide) (by simpa using hkind)]
  simp only [finish, get_rx_message, hline, mac_rx_payload p rest hport]
  simp

/-! ### The reply policy -/

theorem reply_step (hp : Helper) (s : rn2xx3_handler)
    (hs : s._state = RN_state.reply_received ∨ s._state = RN_state.reply_received_rx2)
    (hdeadline : sub32 s.millis s._start < s._timeout) :
    async_loop hp s =
      ((reply_policy (hp.determineReceivedDataType s._receivedData)
          { s with _lastError := reply_log hp s })._state,
        reply_policy (hp.determineReceivedDataType s._receivedData)
          { s with _lastError := reply_log hp s }) := by
  rw [async_loop_unexpired hp s hdeadline, dispatch_reply hp s hs]

/-- The replies that end the command with a plain change of state. -/
theorem reply_step_final (hp : Helper) (s : rn2xx3_handler) (st : RN_state)
    (hs : s._state = RN_state.reply_received ∨ s._state = RN_state.reply_received_rx2)
    (hkind : s._processing_cmd ≠ Active_cmd.none)
    (hdeadline : sub32 s.millis s._start < s._timeout)
    (hst : st ∈ finals)
    (hpolicy : reply_policy (hp.determineReceivedDataType s._receivedData)
        { s with _lastError := reply_log hp s } =
      set_state st { s with _lastError := reply_log hp s }) :
    async_loop hp s = (st, finish st { s with _lastError := reply_log hp s }) := by
  rw [reply_step hp s hs hdeadline, hpolicy,
    set_state_final st _ hst (by simpa using hkind)]
  rfl

/-- A reply `busy`: the line stays in the buffer and the state is as before,
so the next step handles the same line again; the tenth handling gives up. -/
theorem busy_step (hp : Helper) (s : rn2xx3_handler)
    (hs : s._state = RN_state.reply_received ∨ s._state = RN_state.reply_received_rx2)
    (hkind : s._processing_cmd ≠ Active_cmd.none)
    (hdeadline : sub32 s.millis s._start < s._timeout)
    (hclass : hp.determineReceivedDataType s._receivedData = received_t.busy) :
    (s._busy_count + 1 < 10 →
      async_loop hp s =
        (s._state, { s with
          _lastError := reply_log hp s
          _busy_count := s._busy_count + 1
          millis := add32 s.millis 1000 })) ∧
    (s._busy_count + 1 ≥ 10 →
      async_loop hp s =
        (RN_state.must_perform_init,
          finish RN_state.must_perform_init { s with _lastError := reply_log hp s })) := by
  rw [reply_step hp s hs hdeadline, hclass]
  simp only [reply_policy]
  constructor
  · intro h
    rw [if_neg (by omega)]
    simp [delay]
  · intro h
    rw [if_pos h, set_state_final _ _ (by decide) (by simpa using hkind)]
    simp [finish]

/-! ### Frames, silent streams, repeated submissions -/

theorem read_line_nothing (hp : Helper) (s : rn2xx3_handler) (hrx : s._serial.rx = []) :
    read_line hp s = (false, s) := by
  cases s with
  | mk ser ms st kind sd rd rxm le dbg icr bc rc start tmo sp d1 d2 status =>
  cases ser with
  | mk rx tx =>
  simp only at hrx
  subst hrx
  simp [read_line, read_line_loop]

theorem idle_step (hp : Helper) (s : rn2xx3_handler)
    (hstate : s._state ≠ RN_state.command_set_to_send ∧
      s._state ≠ RN_state.reply_received ∧ s._state ≠ RN_state.reply_received_rx2)
    (hflag : s._state = RN_state.wait_for_reply ∨ s._state = RN_state.wait_for_reply_rx2 →
      s._invalid_char_read = false)
    (hrx : s._serial.rx = [])
    (hdeadline : sub32 s.millis s._start < s._timeout) :
    async_loop hp s = (s._state, s) := by
  rw [async_loop_unexpired hp s hdeadline]
  have hd : dispatch hp s = s := by
    have hrl := read_line_nothing hp s hrx
    cases hs : s._state <;>
      simp_all [dispatch, time_out_reached]
  rw [hd]

theorem set_state_log (st : RN_state) (s : rn2xx3_handler) :
    ((set_state st s)._state = RN_state.idle ∧ (set_state st s)._lastError = []) ∨
    (set_state st s)._lastError = s._lastError := by
  cases st <;> cases hk : s._processing_cmd <;>
    simp [set_state, set_state_fuel, set_timeout, hk] <;>
    (try split) <;> simp_all

theorem setLastError_log (e : Str) (s : rn2xx3_handler) :
    (s._extensive_debug = true →
      (setLastError e s)._lastError =
        s._lastError ++ ['\n'] ++ decimal s.millis ++ " : ".toList ++ e) ∧
    (s._extensive_debug = false → (setLastError e s)._lastError = e) := by
  constructor <;> intro h <;> simp [setLastError, h]

theorem set_state_log_after (st : RN_state) (s : rn2xx3_handler) (l' : Str) :
    log_after s._lastError l' (set_state st s) := by
  rcases set_state_log st s with h | h
  · exact Or.inl h
  · exact Or.inr (Or.inl h)

theorem reply_policy_log (cls : received_t) (s : rn2xx3_handler) :
    ((reply_policy cls s)._state = RN_state.idle ∧ (reply_policy cls s)._lastError = []) ∨
    (reply_policy cls s)._lastError = s._lastError := by
  cases cls <;> simp only [reply_policy] <;>
    first
      | exact set_state_log _ _
      | (right; simp; done)
      | (split <;> first
          | exact set_state_log _ _
          | (right; simp [delay]))

theorem read_line_loop_log (hp : Helper) (l : List Nat) (s : rn2xx3_handler) :
    (read_line_loop hp l s).2._lastError = s._lastError := by
  induction l generalizing s with
  | nil => simp [read_line_loop]
  | cons b rest ih =>
    simp only [read_line_loop]
    split
    · split
      · simp
      · split
        · simp
        · rw [ih]
    · rw [ih]

theorem dispatch_log (hp : Helper) (s : rn2xx3_handler) :
    log_after s._lastError (reply_log hp s) (dispatch hp s) := by
  have hrl : (read_line hp s).2._lastError = s._lastError :=
    read_line_loop_log hp _ s
  have hw : ∀ st : RN_state,
      (∀ x : rn2xx3_handler, (set_state st x)._lastError = x._lastError) →
      log_after s._lastError (reply_log hp s)
        (if (if (read_line hp s).1 = true then set_state st (read_line hp s).2
              else (read_line hp s).2)._invalid_char_read = true then
          set_state RN_state.invalid_char_read
            (if (read_line hp s).1 = true then set_state st (read_line hp s).2
              else (read_line hp s).2)
         else
          (if (read_line hp s).1 = true then set_state st (read_line hp s).2
              else (read_line hp s).2)) := by
    intro st hst
    have h1 : (if (read_line hp s).1 = true then set_state st (read_line hp s).2
              else (read_line hp s).2)._lastError = s._lastError := by
      split
      · rw [hst, hrl]
      · exact hrl
    generalize (if (read_line hp s).1 = true then set_state st (read_line hp s).2
              else (read_line hp s).2) = s1 at h1 ⊢
    split
    · rw [← h1]; exact set_state_log_after _ _ _
    · exact Or.inr (Or.inl h1)
  unfold dispatch
  split
  · split <;> exact set_state_log_after _ _ _
  · split
    · exact set_state_log_after _ _ _
    · exact Or.inr (Or.inl rfl)
  · exact hw _ (fun x => by
      cases hk : x._processing_cmd <;> simp [set_state, set_state_fuel, hk])
  · exact hw _ (fun x => by
      cases hk : x._processing_cmd <;> simp [set_state, set_state_fuel, hk])
  · rw [handle_reply_received_eq]
    rcases reply_policy_log (hp.determineReceivedDataType s._receivedData)
      { s with _lastError := reply_log hp s } with h | h
    · exact Or.inl h
    · exact Or.inr (Or.inr h)
  · rw [handle_reply_received_eq]
    rcases reply_policy_log (hp.determineReceivedDataType s._receivedData)
      { s with _lastError := reply_log hp s } with h | h
    · exact Or.inl h
    · exact Or.inr (Or.inr h)
  · exact Or.inr (Or.inl rfl)

theorem reply_log_debug (hp : Helper) (s : rn2xx3_handler)
    (hd : s._extensive_debug = true) : ∃ t, reply_log hp s = s._lastError ++ t := by
  unfold reply_log
  simp only
  split
  · exact ⟨_, by simp [setLastError, hd, List.append_assoc]; rfl⟩
  · exact ⟨[], by simp⟩

theorem deadline_check_log (s : rn2xx3_handler) :
    (deadline_check s)._lastError = s._lastError ∧
    (deadline_check s)._extensive_debug = s._extensive_debug := by
  unfold deadline_check
  split
  · split
    · cases hk : s._processing_cmd <;> simp [set_state, set_state_fuel, hk]
    · exact ⟨rfl, rfl⟩
  · exact ⟨rfl, rfl⟩

theorem async_loop_log (hp : Helper) (s : rn2xx3_handler)
    (hd : s._extensive_debug = true) :
    ((async_loop hp s).2._state = RN_state.idle ∧ (async_loop hp s).2._lastError = []) ∨
    ∃ t, (async_loop hp s).2._lastError = s._lastError ++ t := by
  rw [async_loop_eq]
  have h1 := deadline_check_log s
  rcases dispatch_log hp (deadline_check s) with h | h | h
  · exact Or.inl h
  · exact Or.inr ⟨[], by simp [h, h1.1]⟩
  · obtain ⟨t, ht⟩ := reply_log_debug hp (deadline_check s) (h1.2.trans hd)
    exact Or.inr ⟨t, by simp only [h, ht, h1.1]⟩

theorem async_loop_expired (hp : Helper) (s : rn2xx3_handler)
    (hkind : s._processing_cmd ≠ Active_cmd.none)
    (hstate : s._state ≠ RN_state.must_pause)
    (helapsed : sub32 s.millis s._start ≥ s._timeout) :
    async_loop hp s = (RN_state.timeout, finish RN_state.timeout s) := by
  have hd : deadline_check s = finish RN_state.timeout s := by
    simp [deadline_check, command_finished, time_out_reached, hkind, hstate, helapsed,
      set_state, set_state_fuel, finish]
  rw [async_loop_eq, hd]
  simp [dispatch, finish]

theorem drive_finished (hp : Helper) (ts : List Tick) (s : rn2xx3_handler)
    (h : s._processing_cmd = Active_cmd.none) : drive hp ts s = s := by
  cases ts <;> simp [drive, command_finished, h]

theorem drive_pending (hp : Helper) (e : Tick) (es : List Tick) (s : rn2xx3_handler)
    (h : s._processing_cmd ≠ Active_cmd.none) :
    drive hp (e :: es) s = drive hp es (async_loop hp (e.apply s)).2 := by
  simp [drive, command_finished, h]

theorem drive_append (hp : Helper) (a b : List Tick) (s : rn2xx3_handler) :
    drive hp (a ++ b) s = drive hp b (drive hp a s) := by
  induction a generalizing s with
  | nil => rfl
  | cons e es ih =>
    by_cases hk : s._processing_cmd = Active_cmd.none
    · rw [List.cons_append, drive_finished hp _ s hk, drive_finished hp _ s hk,
        drive_finished hp _ s hk]
    · rw [List.cons_append, drive_pending hp e _ s hk, drive_pending hp e es s hk]
      exact ih _

theorem silent_step (hp : Helper) (tx0 cmd : Str) (start tmo : Nat) (e : Tick)
    (s : rn2xx3_handler) (h : silent_pending tx0 cmd start tmo s) :
    (e.arrived = [] → sub32 e.now start < tmo →
      silent_pending tx0 cmd start tmo (async_loop hp (e.apply s)).2 ∧
      (async_loop hp (e.apply s)).2._state = RN_state.wait_for_reply ∧
      (async_loop hp (e.apply s)).2._processing_cmd = s._processing_cmd ∧
      (async_loop hp (e.apply s)).2._serial.tx = tx0 ++ cmd ++ ['\r', '\n']) ∧
    (sub32 e.now start ≥ tmo →
      ended_in RN_state.timeout (async_loop hp (e.apply s)).2 ∧
      (async_loop hp (e.apply s)).2._serial.tx = s._serial.tx) := by
  obtain ⟨hk, hflag, hstart, htmo, hcmd, hst⟩ := h
  constructor
  · intro he hlt
    have hdl : sub32 (e.apply s).millis (e.apply s)._start < (e.apply s)._timeout := by
      simpa [Tick.apply, hstart, htmo] using hlt
    rw [async_loop_unexpired hp _ hdl]
    rcases hst with ⟨hs, hr, htx⟩ | ⟨hs, hrx, htx⟩
    · rw [dispatch_send hp _ (by simpa [Tick.apply] using hs) (by simpa [Tick.apply] using hr)]
      simp [silent_pending, Tick.apply, hk, hflag, hstart, htmo, hcmd, htx]
    · have hrl := read_line_nothing hp (e.apply s) (by simp [Tick.apply, hrx, he])
      have hd : dispatch hp (e.apply s) = e.apply s := by
        simp [dispatch, Tick.apply, hs, hflag] at hrl ⊢
        simp [hrl, hflag]
      rw [hd]
      simp [silent_pending, Tick.apply, hk, hflag, hstart, htmo, hcmd, htx, hs, hrx, he]
  · intro hge
    have hne : (e.apply s)._state ≠ RN_state.must_pause := by
      rcases hst with ⟨hs, _, _⟩ | ⟨hs, _, _⟩ <;> simp [Tick.apply, hs]
    rw [async_loop_expired hp _ (by simpa [Tick.apply] using hk) hne
      (by simpa [Tick.apply, hstart, htmo] using hge)]
    simp [ended_in, finish, Tick.apply]

/-- Steps on a silent stream, all of them before the deadline: the command
stays pending, and from the first step on it has been written once. -/
theorem silent_early (hp : Helper) (tx0 cmd : Str) (start tmo : Nat) (early : List Tick)
    (s : rn2xx3_handler) (h : silent_pending tx0 cmd start tmo s)
    (hearly : ∀ e ∈ early, e.arrived = [] ∧ sub32 e.now start < tmo) :
    silent_pending tx0 cmd start tmo (drive hp early s) ∧
    (drive hp early s)._processing_cmd = s._processing_cmd ∧
    (early ≠ [] →
      (drive hp early s)._state = RN_state.wait_for_reply ∧
      (drive hp early s)._serial.tx = tx0 ++ cmd ++ ['\r', '\n']) := by
  induction early generalizing s with
  | nil => exact ⟨h, rfl, fun hne => absurd rfl hne⟩
  | cons e es ih =>
    rw [drive_pending hp e es s h.1]
    have he := hearly e (by simp)
    have hstep := (silent_step hp tx0 cmd start tmo e s h).1 he.1 he.2
    have hnext := ih _ hstep.1 (fun d hd => hearly d (by simp [hd]))
    refine ⟨hnext.1, hnext.2.1.trans hstep.2.2.1, fun _ => ?_⟩
    by_cases hes : es = []
    · subst hes
      exact ⟨hstep.2.1, hstep.2.2.2⟩
    · exact hnext.2.2 hes

/-- The first step at or after the deadline ends the command as `timeout` and
writes nothing; later ticks change nothing any more. -/
theorem silent_late (hp : Helper) (tx0 cmd : Str) (start tmo : Nat) (late : Tick)
    (rest : List Tick) (s : rn2xx3_handler) (h : silent_pending tx0 cmd start tmo s)
    (hlate : sub32 late.now start ≥ tmo) :
    ended_in RN_state.timeout (drive hp (late :: rest) s) ∧
    (drive hp (late :: rest) s)._serial.tx = s._serial.tx := by
  rw [drive_pending hp late rest s h.1]
  have hfin := (silent_step hp tx0 cmd start tmo late s h).2 hlate
  rw [drive_finished hp rest _ hfin.1.2]
  exact hfin

theorem silent_drive (hp : Helper) (tx0 cmd : Str) (start tmo : Nat) (ts : List Tick)
    (s : rn2xx3_handler) (h : silent_pending tx0 cmd start tmo s)
    (hsilent : ∀ e ∈ ts, e.arrived = [])
    (hlate : ∃ e ∈ ts, sub32 e.now start ≥ tmo) :
    ended_in RN_state.timeout (drive hp ts s) ∧
    ((drive hp ts s)._serial.tx = tx0 ∨
      (drive hp ts s)._serial.tx = tx0 ++ cmd ++ ['\r', '\n']) := by
  induction ts generalizing s with
  | nil => simp at hlate
  | cons e es ih =>
    by_cases hl : sub32 e.now start < tmo
    · rw [drive_pending hp e es s h.1]
      have hnext := ((silent_step hp tx0 cmd start tmo e s h).1 (hsilent e (by simp)) hl).1
      apply ih _ hnext (fun d hd => hsilent d (by simp [hd]))
      obtain ⟨d, hd, hdl⟩ := hlate
      simp only [List.mem_cons] at hd
      rcases hd with rfl | hd
      · omega
      · exact ⟨d, hd, hdl⟩
    · have hfin := silent_late hp tx0 cmd start tmo e es s h (by omega)
      refine ⟨hfin.1, ?_⟩
      rw [hfin.2]
      rcases h.2.2.2.2.2 with ⟨_, _, htx⟩ | ⟨_, _, htx⟩
      · exact Or.inl htx
      · exact Or.inr htx

theorem submit_answered_final (hp : Helper) (command body : Str) (cls : received_t)
    (st : RN_state) (r : Round) (s : rn2xx3_handler)
    (hkind : s._processing_cmd = Active_cmd.none)
    (hflag : s._invalid_char_read = false)
    (hcmd : command ≠ [])
    (hnl : hp.valid_char '\n' = true) (hbody : line_body hp body)
    (hclass : hp.determineReceivedDataType (body ++ ['\n']) = cls)
    (hpolicy : ∀ x : rn2xx3_handler, x._state = RN_state.reply_received →
      x._processing_cmd = Active_cmd.other → reply_policy cls x = finish st x)
    (htime : r.in_time) :
    ended_in st (submit_answered hp command (body ++ ['\n']) r s) ∧
    (submit_answered hp command (body ++ ['\n']) r s)._invalid_char_read = false ∧
    (submit_answered hp command (body ++ ['\n']) r s)._retry_count = 0 ∧
    (submit_answered hp command (body ++ ['\n']) r s)._serial.tx =
      s._serial.tx ++ command ++ ['\r', '\n'] := by
  obtain ⟨h1, h2, h3⟩ := htime
  unfold submit_answered
  rw [prepare_raw_command_accepts _ _ (by simpa [Tick.apply] using hkind) hcmd]
  simp only [Tick.apply]
  rw [drive]
  simp only [command_finished]
  rw [if_neg (by simp)]
  rw [async_loop_unexpired _ _ (by simpa [Tick.apply] using h1)]
  rw [dispatch_send _ _ (by simp [Tick.apply]) (by simp [Tick.apply])]
  simp only [Tick.apply]
  rw [drive]
  simp only [command_finished]
  rw [if_neg (by simp)]
  rw [async_loop_unexpired _ _ (by simpa [Tick.apply] using h2)]
  rw [(dispatch_read hp body [] hnl hbody _ (by simp [Tick.apply])
        (by simpa [Tick.apply] using hflag)).1 (by simp [Tick.apply])]
  simp only [Tick.apply]
  rw [drive]
  simp only [command_finished]
  rw [if_neg (by simp)]
  rw [async_loop_unexpired _ _ (by simpa [Tick.apply] using h3)]
  rw [dispatch_reply _ _ (by simp [Tick.apply])]
  simp only [Tick.apply, List.nil_append, hclass]
  rw [hpolicy _ (by simp) (by simp)]
  simp [drive, finish, command_finished, ended_in]

theorem submissions_no_free_ch (hp : Helper) (command body : Str) (rs : List Round)
    (s : rn2xx3_handler)
    (hkind : s._processing_cmd = Active_cmd.none)
    (hflag : s._invalid_char_read = false)
    (hcmd : command ≠ [])
    (hnl : hp.valid_char '\n' = true) (hbody : line_body hp body)
    (hclass : hp.determineReceivedDataType (body ++ ['\n']) = received_t.no_free_ch)
    (htime : ∀ r ∈ rs, r.in_time) (hrs : rs ≠ []) :
    ended_in RN_state.duty_cycle_exceeded
      (submissions hp command (body ++ ['\n']) rs s) ∧
    (submissions hp command (body ++ ['\n']) rs s)._retry_count = 0 := by
  induction rs generalizing s with
  | nil => exact absurd rfl hrs
  | cons r rs ih =>
    have h := submit_answered_final hp command body received_t.no_free_ch
      RN_state.duty_cycle_exceeded r s hkind hflag hcmd hnl hbody hclass
      (fun x _ hk => by
        simp only [reply_policy]
        exact set_state_final _ x (by decide) (by simp [hk]))
      (htime r (by simp))
    simp only [submissions]
    by_cases hnil : rs = []
    · subst hnil
      simp only [submissions]
      exact ⟨h.1, h.2.2.1⟩
    · exact ih _ h.1.2 h.2.1 (fun r' hr' => htime r' (by simp [hr'])) hnil

/-! ### The retry counter and the writes of the command -/

theorem keeps_refl (a : rn2xx3_handler) : keeps a a :=
  ⟨rfl, fun h => ⟨rfl, rfl, h⟩⟩

theorem keeps_trans {a b c : rn2xx3_handler} (h1 : keeps a b) (h2 : keeps b c) :
    keeps a c := by
  refine ⟨h2.1.trans h1.1, fun h => ?_⟩
  have hb := h2.2 h
  have ha := h1.2 hb.2.2
  exact ⟨hb.1.trans ha.1, hb.2.1.trans ha.2.1, ha.2.2⟩

theorem set_state_keeps (st : RN_state) (s : rn2xx3_handler) : keeps s (set_state st s) := by
  cases st <;> cases hk : s._processing_cmd <;>
    simp [keeps, set_state, set_state_fuel, set_timeout, hk] <;>
    (try split) <;> simp_all

theorem read_line_loop_keeps (hp : Helper) (l : List Nat) (s : rn2xx3_handler) :
    keeps s (read_line_loop hp l s).2 ∧
    (s._invalid_char_read = true → (read_line_loop hp l s).2._invalid_char_read = true) ∧
    (read_line_loop hp l s).2._timeout = s._timeout ∧
    (read_line_loop hp l s).2._start = s._start ∧
    (read_line_loop hp l s).2.millis = s.millis := by
  induction l generalizing s with
  | nil => simp [read_line_loop, keeps]
  | cons b rest ih =>
    simp only [read_line_loop]
    split
    · split
      · simp [keeps]
      · split
        · simp [keeps]
        · have h := ih { s with
            _serial := { s._serial with rx := rest }
            _receivedData := s._receivedData ++ [Char.ofNat (b % 256)] }
          exact ⟨keeps_trans ⟨rfl, fun hk => ⟨rfl, rfl, hk⟩⟩ h.1, h.2.1, h.2.2⟩
    · have h := ih { s with _serial := { s._serial with rx := rest } }
      exact ⟨keeps_trans ⟨rfl, fun hk => ⟨rfl, rfl, hk⟩⟩ h.1, h.2.1, h.2.2⟩

theorem reply_policy_keeps (cls : received_t) (s : rn2xx3_handler) :
    keeps s (reply_policy cls s) := by
  cases cls <;> simp only [reply_policy] <;>
    first
      | exact set_state_keeps _ _
      | exact keeps_refl _
      | exact keeps_trans ⟨rfl, fun hk => ⟨rfl, rfl, hk⟩⟩ (set_state_keeps _ _)
      | (split <;> first
          | exact set_state_keeps _ _
          | exact keeps_trans ⟨rfl, fun hk => ⟨rfl, rfl, hk⟩⟩ (set_state_keeps _ _)
          | simp [keeps, delay])

theorem deadline_check_keeps (s : rn2xx3_handler) : keeps s (deadline_check s) := by
  unfold deadline_check
  split
  · split
    · exact set_state_keeps _ _
    · exact keeps_refl _
  · exact keeps_refl _

theorem dispatch_keeps (hp : Helper) (s : rn2xx3_handler)
    (hs : s._state ≠ RN_state.command_set_to_send) : keeps s (dispatch hp s) := by
  have hrl : keeps s (read_line hp s).2 := (read_line_loop_keeps hp _ s).1
  have hw : ∀ st : RN_state,
      keeps s
        (if (if (read_line hp s).1 = true then set_state st (read_line hp s).2
              else (read_line hp s).2)._invalid_char_read = true then
          set_state RN_state.invalid_char_read
            (if (read_line hp s).1 = true then set_state st (read_line hp s).2
              else (read_line hp s).2)
         else
          (if (read_line hp s).1 = true then set_state st (read_line hp s).2
              else (read_line hp s).2)) := by
    intro st
    have h1 : keeps s (if (read_line hp s).1 = true then set_state st (read_line hp s).2
              else (read_line hp s).2) := by
      split
      · exact keeps_trans hrl (set_state_keeps _ _)
      · exact hrl
    generalize (if (read_line hp s).1 = true then set_state st (read_line hp s).2
              else (read_line hp s).2) = s1 at h1 ⊢
    split
    · exact keeps_trans h1 (set_state_keeps _ _)
    · exact h1
  unfold dispatch
  split
  · next h => exact absurd h hs
  · split
    · exact set_state_keeps _ _
    · exact keeps_refl _
  · exact hw _
  · exact hw _
  · rw [handle_reply_received_eq]
    exact keeps_trans ⟨rfl, fun hk => ⟨rfl, rfl, hk⟩⟩ (reply_policy_keeps _ _)
  · rw [handle_reply_received_eq]
    exact keeps_trans ⟨rfl, fun hk => ⟨rfl, rfl, hk⟩⟩ (reply_policy_keeps _ _)
  · exact keeps_refl _

theorem written_succ (tx0 cmd : Str) (k : Nat) :
    written tx0 cmd k ++ cmd ++ ['\r', '\n'] = written tx0 cmd (k + 1) := by
  simp [written, List.replicate_succ']

theorem write_count_of_keeps (tx0 cmd : Str) (a b : rn2xx3_handler)
    (h : write_count tx0 cmd a) (hk : keeps a b) : write_count tx0 cmd b := by
  obtain ⟨k, hk10, htx, hp⟩ := h
  refine ⟨k, hk10, hk.1.trans htx, fun hb => ?_⟩
  have h1 := hk.2 hb
  have h2 := hp h1.2.2
  exact ⟨h1.1.trans h2.1, h1.2.1.trans h2.2⟩

theorem dispatch_write_count (hp : Helper) (tx0 cmd : Str) (s : rn2xx3_handler)
    (h : write_count tx0 cmd s) (hkind : s._processing_cmd ≠ Active_cmd.none) :
    write_count tx0 cmd (dispatch hp s) := by
  by_cases hs : s._state = RN_state.command_set_to_send
  · obtain ⟨k, hk10, htx, hp2⟩ := h
    have h2 := hp2 hkind
    by_cases hr : s._retry_count < 10
    · rw [dispatch_send hp s hs hr]
      refine ⟨k + 1, by omega, ?_, fun _ => ?_⟩
      · simp only [htx, h2.2]
        exact written_succ tx0 cmd k
      · exact ⟨by simp [h2.1], h2.2⟩
    · have hd : dispatch hp s =
          set_state RN_state.max_attempt_reached
            { s with _retry_count := s._retry_count + 1 } := by
        simp [dispatch, hs]
        omega
      rw [hd]
      have hfin := set_state_final RN_state.max_attempt_reached
        { s with _retry_count := s._retry_count + 1 } (by decide) (by simpa using hkind)
      rw [hfin]
      exact ⟨k, hk10, by simpa [finish] using htx, fun hc => absurd rfl hc⟩
  · exact write_count_of_keeps tx0 cmd s _ h (dispatch_keeps hp s hs)

theorem async_loop_write_count (hp : Helper) (tx0 cmd : Str) (e : Tick)
    (s : rn2xx3_handler) (h : write_count tx0 cmd s)
    (hkind : s._processing_cmd ≠ Active_cmd.none) :
    write_count tx0 cmd (async_loop hp (e.apply s)).2 := by
  rw [async_loop_eq]
  have h0 : write_count tx0 cmd (e.apply s) :=
    write_count_of_keeps tx0 cmd s _ h ⟨rfl, fun hk => ⟨rfl, rfl, hk⟩⟩
  have h1 : write_count tx0 cmd (deadline_check (e.apply s)) :=
    write_count_of_keeps tx0 cmd _ _ h0 (deadline_check_keeps _)
  by_cases hk : (deadline_check (e.apply s))._processing_cmd = Active_cmd.none
  · have hd : deadline_check (e.apply s) = finish RN_state.timeout (e.apply s) := by
      unfold deadline_check at hk ⊢
      split at hk
      · split at hk
        · rw [if_pos (by assumption), if_pos (by assumption)]
          exact set_state_final _ _ (by decide) (by simpa [Tick.apply] using hkind)
        · exact absurd hk (by simpa [Tick.apply] using hkind)
      · exact absurd hk (by simpa [Tick.apply] using hkind)
    have hdis : dispatch hp (deadline_check (e.apply s)) = deadline_check (e.apply s) := by
      rw [hd]; simp [dispatch, finish]
    rw [hdis]
    exact h1
  · exact dispatch_write_count hp tx0 cmd _ h1 hk

theorem drive_write_count (hp : Helper) (tx0 cmd : Str) (ts : List Tick)
    (s : rn2xx3_handler) (h : write_count tx0 cmd s) :
    write_count tx0 cmd (drive hp ts s) := by
  induction ts generalizing s with
  | nil => simpa [drive] using h
  | cons e es ih =>
    by_cases hk : s._processing_cmd = Active_cmd.none
    · rw [drive_finished hp _ s hk]; exact h
    · rw [drive_pending hp e es s hk]
      exact ih _ (async_loop_write_count hp tx0 cmd e s h hk)

/-- Once the invalid-character flag is set for a generic command, every step
in `wait_for_reply` or `wait_for_reply_rx2` goes back to `command_set_to_send`,
whatever the stream holds, and the flag stays set. -/
theorem sticky_flag_step (hp : Helper) (s : rn2xx3_handler)
    (hs : s._state = RN_state.wait_for_reply ∨ s._state = RN_state.wait_for_reply_rx2)
    (hkind : s._processing_cmd = Active_cmd.other)
    (hflag : s._invalid_char_read = true)
    (hcmd : s._sendData ≠ [])
    (hdeadline : sub32 s.millis s._start < s._timeout) :
    (async_loop hp s).1 = RN_state.command_set_to_send ∧
    (async_loop hp s).2._invalid_char_read = true ∧
    (async_loop hp s).2._processing_cmd = Active_cmd.other := by
  rw [async_loop_unexpired hp s hdeadline]
  have hk := read_line_loop_keeps hp s._serial.rx s
  have hf := read_line_frame hp s
  have hkind2 : (read_line hp s).2._processing_cmd = Active_cmd.other := hf.2.trans hkind
  have hflag2 : (read_line hp s).2._invalid_char_read = true := hk.2.1 hflag
  have hcmd2 : (read_line hp s).2._sendData ≠ [] := by
    have := (hk.1.2 (by rw [show (read_line_loop hp s._serial.rx s).2 = (read_line hp s).2
      from rfl, hkind2]; decide)).2.1
    rw [show (read_line hp s).2 = (read_line_loop hp s._serial.rx s).2 from rfl, this]
    exact hcmd
  have key : ∀ st : RN_state, (st = RN_state.reply_received ∨ st = RN_state.reply_received_rx2) →
      ∀ b : Bool,
      (set_state RN_state.invalid_char_read
        (if b = true then set_state st (read_line hp s).2 else (read_line hp s).2))._state = RN_state.command_set_to_send ∧
      (set_state RN_state.invalid_char_read
        (if b = true then set_state st (read_line hp s).2 else (read_line hp s).2))._invalid_char_read = true ∧
      (set_state RN_state.invalid_char_read
        (if b = true then set_state st (read_line hp s).2 else (read_line hp s).2))._processing_cmd = Active_cmd.other ∧
      (if b = true then set_state st (read_line hp s).2 else (read_line hp s).2)._invalid_char_read = true := by
    intro st hst b
    rcases hst with rfl | rfl <;> cases b <;>
      simp [set_state, set_state_fuel, set_timeout, hkind2, hflag2, hcmd2]
  rcases hs with hs | hs
  · have h := key RN_state.reply_received (Or.inl rfl) (read_line hp s).1
    simp only [dispatch, hs]
    rw [if_pos h.2.2.2]
    exact ⟨h.1, h.2.1, h.2.2.1⟩
  · have h := key RN_state.reply_received_rx2 (Or.inr rfl) (read_line hp s).1
    simp only [dispatch, hs]
    rw [if_pos h.2.2.2]
    exact ⟨h.1, h.2.1, h.2.2.1⟩

/-! ### Replies without an action, and the clock -/

theorem sub32_elapsed (s e : Nat) (hs : s < 2 ^ 32) (he : e < 2 ^ 32) :
    sub32 ((s + e) % 2 ^ 32) s = e := by
  unfold sub32 u32
  omega

theorem unhandled_step (hp : Helper) (s : rn2xx3_handler)
    (hs : s._state = RN_state.reply_received ∨ s._state = RN_state.reply_received_rx2)
    (hclass : hp.determineReceivedDataType s._receivedData = received_t.radio_rx ∨
      hp.determineReceivedDataType s._receivedData = received_t.radio_tx_ok)
    (hdebug : s._extensive_debug = false)
    (hdeadline : sub32 s.millis s._start < s._timeout) :
    async_loop hp s = (s._state, s) := by
  rw [reply_step hp s hs hdeadline]
  have hlog : reply_log hp s = s._lastError := by
    rcases hclass with h | h <;> simp [reply_log, h, hdebug]
  have hpol : reply_policy (hp.determineReceivedDataType s._receivedData)
      { s with _lastError := reply_log hp s } = s := by
    rw [hlog]
    rcases hclass with h | h <;> rw [h] <;> rfl
  rw [hpol]

theorem unhandled_drive (hp : Helper) (start tmo : Nat) (ts : List Tick)
    (s : rn2xx3_handler) (h : unhandled_reply hp start tmo s)
    (hkind : s._processing_cmd ≠ Active_cmd.none) :
    ((∀ e ∈ ts, sub32 e.now start < tmo) →
      (drive hp ts s)._state = s._state ∧
      (drive hp ts s)._processing_cmd = s._processing_cmd ∧
      (drive hp ts s)._receivedData = s._receivedData) ∧
    ((∃ e ∈ ts, sub32 e.now start ≥ tmo) → ended_in RN_state.timeout (drive hp ts s)) ∧
    ((drive hp ts s)._processing_cmd = Active_cmd.none →
      (drive hp ts s)._state = RN_state.timeout) := by
  induction ts generalizing s with
  | nil =>
    refine ⟨fun _ => ⟨rfl, rfl, rfl⟩, fun hl => ?_, fun hn => absurd hn hkind⟩
    simp at hl
  | cons e es ih =>
    obtain ⟨hs, hclass, hdebug, hstart, htmo⟩ := h
    rw [drive_pending hp e es s hkind]
    by_cases hl : sub32 e.now start < tmo
    · have hstep := unhandled_step hp (e.apply s) (by simpa [Tick.apply] using hs)
        (by simpa [Tick.apply] using hclass) (by simpa [Tick.apply] using hdebug)
        (by simpa [Tick.apply, hstart, htmo] using hl)
      rw [hstep]
      have hnext := ih (e.apply s)
        ⟨by simpa [Tick.apply] using hs, by simpa [Tick.apply] using hclass,
          by simpa [Tick.apply] using hdebug, by simpa [Tick.apply] using hstart,
          by simpa [Tick.apply] using htmo⟩
        (by simpa [Tick.apply] using hkind)
      refine ⟨fun hall => ?_, fun hex => ?_, hnext.2.2⟩
      · exact hnext.1 (fun d hd => hall d (by simp [hd]))
      · apply hnext.2.1
        obtain ⟨d, hd, hdl⟩ := hex
        simp only [List.mem_cons] at hd
        rcases hd with rfl | hd
        · omega
        · exact ⟨d, hd, hdl⟩
    · have hne : (e.apply s)._state ≠ RN_state.must_pause := by
        rcases hs with hs | hs <;> simp [Tick.apply, hs]
      rw [async_loop_expired hp _ (by simpa [Tick.apply] using hkind) hne
        (by simp only [Tick.apply, hstart, htmo]; omega)]
      rw [drive_finished hp es _ (by simp [finish])]
      refine ⟨fun hall => ?_, fun _ => by simp [ended_in, finish], fun _ => by simp [finish]⟩
      exact absurd (hall e (by simp)) hl

/-! ## The claims -/

/-- C1: when no command is outstanding and the command text is not empty,
`prepare_raw_command` returns true; afterwards the state is
`command_set_to_send`, the kind is `Active_cmd.other`, the pending text is the
given command and the retry and busy counters are 0.  The stream is as before:
nothing changes but the members listed (the deadline of 1500 ms is armed from
the current clock reading). -/
theorem C1_prepare_raw_command_accepts (s : rn2xx3_handler) (command : Str)
    (hkind : s._processing_cmd = Active_cmd.none) (hcmd : command ≠ []) :
    prepare_raw_command command s =
      (true, { s with
        _state := RN_state.command_set_to_send
        _processing_cmd := Active_cmd.other
        _sendData := command
        _busy_count := 0
        _retry_count := 0
        _start_prep := s.millis
        _timeout := 1500
        _start := s.millis }) :=
  prepare_raw_command_accepts s command hkind hcmd

/-- Witness of C1: the command `sys get ver` given to a new handler. -/
theorem C1_prepare_raw_command_accepts_witness :
    (initial 7)._processing_cmd = Active_cmd.none ∧
    "sys get ver".toList ≠ [] ∧
    prepare_raw_command "sys get ver".toList (initial 7) =
      (true, { initial 7 with
        _state := RN_state.command_set_to_send
        _processing_cmd := Active_cmd.other
        _sendData := "sys get ver".toList
        _busy_count := 0
        _retry_count := 0
        _start_prep := 7
        _timeout := 1500
        _start := 7 }) :=
  ⟨rfl, by decide,
    C1_prepare_raw_command_accepts (initial 7) "sys get ver".toList rfl (by decide)⟩

/-- C2: while a command is outstanding, `prepare_raw_command`,
`prepare_tx_command` (whatever its arguments) and `exec_join` return false and
leave the handler, the stream included, exactly as it was. -/
theorem C2_outstanding_command_rejects (hp : Helper) (bl : Blocking)
    (s : rn2xx3_handler) (hkind : s._processing_cmd ≠ Active_cmd.none)
    (command data : Str) (shouldEncode useOTAA : Bool) (port : Fin 256) :
    prepare_raw_command command s = (false, s) ∧
    prepare_tx_command hp command data shouldEncode port s = (false, s) ∧
    exec_join bl useOTAA s = (false, s) := by
  simp [prepare_raw_command, prepare_tx_command, exec_join, command_finished, hkind]

/-- Witness of C2: a handler whose command `sys get ver` is pending rejects
a further command, a transmit command and a join. -/
theorem C2_outstanding_command_rejects_witness :
    prepare_raw_command "mac tx cnf ".toList
        (prepare_raw_command "sys get ver".toList (initial 0)).2
      = (false, (prepare_raw_command "sys get ver".toList (initial 0)).2) ∧
    prepare_tx_command specHelper "mac tx cnf ".toList "hello".toList true 1
        (prepare_raw_command "sys get ver".toList (initial 0)).2
      = (false, (prepare_raw_command "sys get ver".toList (initial 0)).2) ∧
    exec_join no_wait true (prepare_raw_command "sys get ver".toList (initial 0)).2
      = (false, (prepare_raw_command "sys get ver".toList (initial 0)).2) :=
  C2_outstanding_command_rejects specHelper no_wait
    (prepare_raw_command "sys get ver".toList (initial 0)).2 (by decide)
    "mac tx cnf ".toList "hello".toList true true 1

/-- C3: in every handler reachable from an idle one by calls of
`prepare_raw_command`, `prepare_tx_command` and `async_loop`, whatever the
stream delivers and the clock shows in between, the kind of the active command
is `none` if and only if the state is one of idle, reply_received_finished,
timeout, max_attempt_reached, error, must_perform_init, duty_cycle_exceeded,
invalid_char_read, tx_success, tx_success_with_rx, join_accepted. -/
theorem C3_kind_none_iff_state_quiescent (hp : Helper) (s : rn2xx3_handler)
    (h : Reachable hp s) :
    s._processing_cmd = Active_cmd.none ↔
      s._state ∈ [RN_state.idle, RN_state.reply_received_finished, RN_state.timeout,
        RN_state.max_attempt_reached, RN_state.error, RN_state.must_perform_init,
        RN_state.duty_cycle_exceeded, RN_state.invalid_char_read, RN_state.tx_success,
        RN_state.tx_success_with_rx, RN_state.join_accepted] :=
  reachable_kindInv hp s h

/-- Witness of C3: a new handler, a command given to it, and one step. -/
theorem C3_kind_none_iff_state_quiescent_witness :
    Reachable specHelper
      (async_loop specHelper (prepare_raw_command "sys get ver".toList (initial 0)).2).2 ∧
    ((async_loop specHelper
        (prepare_raw_command "sys get ver".toList (initial 0)).2).2._processing_cmd
        = Active_cmd.none ↔
      (async_loop specHelper
        (prepare_raw_command "sys get ver".toList (initial 0)).2).2._state ∈
        [RN_state.idle, RN_state.reply_received_finished, RN_state.timeout,
        RN_state.max_attempt_reached, RN_state.error, RN_state.must_perform_init,
        RN_state.duty_cycle_exceeded, RN_state.invalid_char_read, RN_state.tx_success,
        RN_state.tx_success_with_rx, RN_state.join_accepted]) :=
  ⟨Reachable.loop _ (Reachable.raw _ _ (Reachable.start _ rfl rfl)),
    C3_kind_none_iff_state_quiescent specHelper _
      (Reachable.loop _ (Reachable.raw _ _ (Reachable.start _ rfl rfl)))⟩

/-- C4: when a command is outstanding, the state is not `must_pause` and the
time elapsed since the deadline was armed (`millis() - _start`, unsigned 32-bit)
is at least the timeout, `async_loop` returns `timeout` and the kind is `none`
afterwards.  The stream, the received line, the error log and the status are
as before, so nothing was read, written or classified; this is so in every
state other than `must_pause`. -/
theorem C4_deadline_elapsed_gives_timeout (hp : Helper) (s : rn2xx3_handler)
    (hkind : s._processing_cmd ≠ Active_cmd.none)
    (hstate : s._state ≠ RN_state.must_pause)
    (helapsed : sub32 s.millis s._start ≥ s._timeout) :
    async_loop hp s =
      (RN_state.timeout, { s with
        _state := RN_state.timeout
        _processing_cmd := Active_cmd.none
        _start := 0
        _invalid_char_read := false
        _busy_count := 0
        _retry_count := 0 }) := by
  have hd : deadline_check s = { s with
        _state := RN_state.timeout
        _processing_cmd := Active_cmd.none
        _start := 0
        _invalid_char_read := false
        _busy_count := 0
        _retry_count := 0 } := by
    simp [deadline_check, command_finished, time_out_reached, hkind, hstate, helapsed,
      set_state, set_state_fuel]
  rw [async_loop_eq, hd]
  simp [dispatch]

/-- Witness of C4: the reply line `ok` is complete in the buffer, the state is
`reply_received`, and the 1500 ms of the deadline have passed. -/
theorem C4_deadline_elapsed_gives_timeout_witness :
    late_reply._state = RN_state.reply_received ∧
    late_reply._receivedData = "ok\r\n".toList ∧
    late_reply._processing_cmd ≠ Active_cmd.none ∧
    late_reply._state ≠ RN_state.must_pause ∧
    sub32 late_reply.millis late_reply._start ≥ late_reply._timeout ∧
    async_loop specHelper late_reply =
      (RN_state.timeout, { late_reply with
        _state := RN_state.timeout
        _processing_cmd := Active_cmd.none
        _start := 0
        _invalid_char_read := false
        _busy_count := 0
        _retry_count := 0 }) :=
  ⟨by decide, by decide, by decide, by decide, by decide,
    C4_deadline_elapsed_gives_timeout specHelper late_reply
      (by decide) (by decide) (by decide)⟩

/-- C5: a transmit command `mac tx cnf ` with payload `hello`, encode = true
and port 1 is accepted by a handler that has no command outstanding; when the
stream then delivers a reply line that is classified as `ok` and after it a
reply line that is classified as `mac_tx_ok`, and every step is taken before
the deadline of the moment has elapsed, the calls of `async_loop` that follow
one another until the kind is `none` again end in state `tx_success`.  A reply
line is a text of accepted characters without line feed, followed by a line
feed; `t1` to `t5` are the clock readings at the five steps. -/
theorem C5_tx_ok_then_mac_tx_ok (hp : Helper) (s0 : rn2xx3_handler)
    (body1 body2 : Str) (t1 t2 t3 t4 t5 : Nat)
    (hkind : s0._processing_cmd = Active_cmd.none)
    (hflag : s0._invalid_char_read = false)
    (hnl : hp.valid_char '\n' = true)
    (hbody1 : ∀ c ∈ body1, hp.valid_char c = true ∧ c ≠ '\n' ∧ c.toNat < 256)
    (hbody2 : ∀ c ∈ body2, hp.valid_char c = true ∧ c ≠ '\n' ∧ c.toNat < 256)
    (hok : hp.determineReceivedDataType (body1 ++ ['\n']) = received_t.ok)
    (htx : hp.determineReceivedDataType (body2 ++ ['\n']) = received_t.mac_tx_ok)
    (h1 : sub32 t1 s0.millis < 1500) (h2 : sub32 t2 s0.millis < 1500)
    (h3 : sub32 t3 s0.millis < 1500)
    (h4 : sub32 t4 t3 < add32 s0._rxdelay2 3000)
    (h5 : sub32 t5 t3 < add32 s0._rxdelay2 3000) :
    (prepare_tx_command hp "mac tx cnf ".toList "hello".toList true 1 s0).1 = true ∧
    (drive hp
      [{ now := t1, arrived := [] }, { now := t2, arrived := bytes (body1 ++ ['\n']) },
       { now := t3, arrived := [] }, { now := t4, arrived := bytes (body2 ++ ['\n']) },
       { now := t5, arrived := [] }]
      (prepare_tx_command hp "mac tx cnf ".toList "hello".toList true 1 s0).2)._state
      = RN_state.tx_success ∧
    (drive hp
      [{ now := t1, arrived := [] }, { now := t2, arrived := bytes (body1 ++ ['\n']) },
       { now := t3, arrived := [] }, { now := t4, arrived := bytes (body2 ++ ['\n']) },
       { now := t5, arrived := [] }]
      (prepare_tx_command hp "mac tx cnf ".toList "hello".toList true 1 s0).2)._processing_cmd
      = Active_cmd.none := by
  have h := tx_scenario hp s0 "hello".toList body1 body2 1 received_t.mac_tx_ok
    RN_state.tx_success t1 t2 t3 t4 t5 hkind hflag hnl hbody1 hbody2 hok htx
    (fun s hs => by
      simp only [reply_policy]
      exact set_state_final _ s (by decide) hs)
    h1 h2 h3 h4 h5
  exact ⟨h.1, h.2.1, h.2.2⟩

/-- Witness of C5: a new handler, the helper functions as modelled, the lines
`ok` and `mac_tx_ok` as the module sends them (ended by carriage return and line
feed), the steps taken 10, 50, 60, 2000 and 2010 ms after the command was
given. -/
theorem C5_tx_ok_then_mac_tx_ok_witness :
    (prepare_tx_command specHelper "mac tx cnf ".toList "hello".toList true 1
      (initial 0)).1 = true ∧
    (drive specHelper
      [{ now := 10, arrived := [] },
       { now := 50, arrived := bytes ("ok\r".toList ++ ['\n']) },
       { now := 60, arrived := [] },
       { now := 2000, arrived := bytes ("mac_tx_ok\r".toList ++ ['\n']) },
       { now := 2010, arrived := [] }]
      (prepare_tx_command specHelper "mac tx cnf ".toList "hello".toList true 1
        (initial 0)).2)._state = RN_state.tx_success ∧
    (drive specHelper
      [{ now := 10, arrived := [] },
       { now := 50, arrived := bytes ("ok\r".toList ++ ['\n']) },
       { now := 60, arrived := [] },
       { now := 2000, arrived := bytes ("mac_tx_ok\r".toList ++ ['\n']) },
       { now := 2010, arrived := [] }]
      (prepare_tx_command specHelper "mac tx cnf ".toList "hello".toList true 1
        (initial 0)).2)._processing_cmd = Active_cmd.none :=
  C5_tx_ok_then_mac_tx_ok specHelper (initial 0) "ok\r".toList "mac_tx_ok\r".toList
    10 50 60 2000 2010 rfl rfl rfl (by decide) (by decide) (by decide) (by decide)
    (by decide) (by decide) (by decide) (by decide) (by decide)

/-- C6, the code at the reply `mac_rx 1 48656C6C6F`: the command ends in
`tx_success_with_rx`, and the last downlink that is kept (`get_rx_message`) is
the payload followed by the carriage return and line feed that ended the line,
not the payload `48656C6C6F` alone. -/
theorem C6_rx_message_keeps_line_end :
    downlink_run._state = RN_state.tx_success_with_rx ∧
    get_rx_message downlink_run = "48656C6C6F\r\n".toList ∧
    get_rx_message downlink_run ≠ "48656C6C6F".toList := by
  decide

/-- C7: when no command is outstanding and the text built is not empty,
`prepare_tx_command` returns true and leaves the kind `TX`, the state
`command_set_to_send` and as pending text the base command, then the decimal
text of the port and a space if the base command ends with `cnf `, then the
payload, base16 encoded if `shouldEncode` is set.  Nothing else changes but the
counters (0) and the deadline (1500 ms from the current clock reading). -/
theorem C7_prepare_tx_command_text (hp : Helper) (s : rn2xx3_handler)
    (command data : Str) (shouldEncode : Bool) (port : Fin 256)
    (hkind : s._processing_cmd = Active_cmd.none)
    (htext : command
        ++ (if endsWith command "cnf ".toList then decimal port.val ++ [' '] else [])
        ++ (if shouldEncode then hp.base16encode data else data) ≠ []) :
    prepare_tx_command hp command data shouldEncode port s =
      (true, { s with
        _state := RN_state.command_set_to_send
        _processing_cmd := Active_cmd.TX
        _sendData := command
          ++ (if endsWith command "cnf ".toList then decimal port.val ++ [' '] else [])
          ++ (if shouldEncode then hp.base16encode data else data)
        _busy_count := 0
        _retry_count := 0
        _start_prep := s.millis
        _timeout := 1500
        _start := s.millis }) := by
  have htext2 : tx_text hp command data shouldEncode port ≠ [] := htext
  have h := prepare_tx_command_eq hp command data shouldEncode port s
  rw [prepare_raw_command_accepts s _ hkind htext2] at h
  rw [h]
  rfl

/-- Witness of C7: the base command `mac tx cnf `, the payload bytes 0x41 0x42,
encode = true and port 1 give the pending text `mac tx cnf 1 4142`. -/
theorem C7_prepare_tx_command_text_witness :
    prepare_tx_command specHelper "mac tx cnf ".toList ['A', 'B'] true 1 (initial 0) =
      (true, { initial 0 with
        _state := RN_state.command_set_to_send
        _processing_cmd := Active_cmd.TX
        _sendData := "mac tx cnf 1 4142".toList
        _busy_count := 0
        _retry_count := 0
        _start_prep := 0
        _timeout := 1500
        _start := 0 }) :=
  C7_prepare_tx_command_text specHelper (initial 0) "mac tx cnf ".toList ['A', 'B']
    true 1 rfl (by decide)

/-- C8: in state `reply_received` or `reply_received_rx2`, with a command
outstanding and the deadline not elapsed, one step of `async_loop` ends in
`error` when the buffered line is classified as invalid_param,
invalid_data_len, denied or keys_not_init, in `must_perform_init` when it is
classified as not_joined, silent, frame_counter_err_rejoin_needed, mac_paused,
mac_err or radio_err, and in `duty_cycle_exceeded` when it is classified as
no_free_ch.  In all these cases the kind is `none` afterwards; the Joined flag
is cleared for not_joined and is as before for the others. -/
theorem C8_rejecting_replies (hp : Helper) (s : rn2xx3_handler)
    (hs : s._state = RN_state.reply_received ∨ s._state = RN_state.reply_received_rx2)
    (hkind : s._processing_cmd ≠ Active_cmd.none)
    (hdeadline : sub32 s.millis s._start < s._timeout) :
    (hp.determineReceivedDataType s._receivedData ∈
        [received_t.invalid_param, received_t.invalid_data_len, received_t.denied,
         received_t.keys_not_init] →
      (async_loop hp s).1 = RN_state.error ∧
      (async_loop hp s).2._state = RN_state.error ∧
      (async_loop hp s).2._processing_cmd = Active_cmd.none ∧
      (async_loop hp s).2.Status.Joined = s.Status.Joined) ∧
    (hp.determineReceivedDataType s._receivedData = received_t.not_joined →
      (async_loop hp s).1 = RN_state.must_perform_init ∧
      (async_loop hp s).2._state = RN_state.must_perform_init ∧
      (async_loop hp s).2._processing_cmd = Active_cmd.none ∧
      (async_loop hp s).2.Status.Joined = false) ∧
    (hp.determineReceivedDataType s._receivedData ∈
        [received_t.silent, received_t.frame_counter_err_rejoin_needed,
         received_t.mac_paused, received_t.mac_err, received_t.radio_err] →
      (async_loop hp s).1 = RN_state.must_perform_init ∧
      (async_loop hp s).2._state = RN_state.must_perform_init ∧
      (async_loop hp s).2._processing_cmd = Active_cmd.none ∧
      (async_loop hp s).2.Status.Joined = s.Status.Joined) ∧
    (hp.determineReceivedDataType s._receivedData = received_t.no_free_ch →
      (async_loop hp s).1 = RN_state.duty_cycle_exceeded ∧
      (async_loop hp s).2._state = RN_state.duty_cycle_exceeded ∧
      (async_loop hp s).2._processing_cmd = Active_cmd.none ∧
      (async_loop hp s).2.Status.Joined = s.Status.Joined) := by
  refine ⟨?_, ?_, ?_, ?_⟩
  · intro h
    have e := reply_step_final hp s RN_state.error hs hkind hdeadline (by decide)
      (by
        simp only [List.mem_cons, List.mem_singleton, List.not_mem_nil, or_false] at h
        rcases h with h | h | h | h <;> rw [h] <;> rfl)
    rw [e]; simp [finish]
  · intro h
    rw [reply_step hp s hs hdeadline, h]
    simp only [reply_policy]
    rw [set_state_final _ _ (by decide) (by simpa using hkind)]
    simp [finish]
  · intro h
    have e := reply_step_final hp s RN_state.must_perform_init hs hkind hdeadline
      (by decide)
      (by
        simp only [List.mem_cons, List.mem_singleton, List.not_mem_nil, or_false] at h
        rcases h with h | h | h | h | h <;> rw [h] <;> rfl)
    rw [e]; simp [finish]
  · intro h
    have e := reply_step_final hp s RN_state.duty_cycle_exceeded hs hkind hdeadline
      (by decide) (by rw [h]; rfl)
    rw [e]; simp [finish]

/-- Witness of C8: the command `mac set dr 9` answered by `invalid_param`. -/
theorem C8_rejecting_replies_witness :
    (async_loop specHelper rejected_reply).1 = RN_state.error ∧
    (async_loop specHelper rejected_reply).2._state = RN_state.error ∧
    (async_loop specHelper rejected_reply).2._processing_cmd = Active_cmd.none ∧
    (async_loop specHelper rejected_reply).2.Status.Joined
      = rejected_reply.Status.Joined :=
  (C8_rejecting_replies specHelper rejected_reply (by decide) (by decide)
    (by decide)).1 (by decide)

/-- C9, as stated, fails where the sum overflows: with a receive delay 2 of
4294967295 ms the deadline armed for the second reply of a transmit command is
2999 ms, not 4294967295 + 3000 ms. -/
theorem C9_deadline_counterexample :
    determineReceivedDataType tx_ok_reply._receivedData = received_t.ok ∧
    tx_ok_reply._state = RN_state.reply_received ∧
    tx_ok_reply._processing_cmd = Active_cmd.TX ∧
    sub32 tx_ok_reply.millis tx_ok_reply._start < tx_ok_reply._timeout ∧
    (async_loop specHelper tx_ok_reply).1 = RN_state.wait_for_reply_rx2 ∧
    (async_loop specHelper tx_ok_reply).2._timeout = 2999 ∧
    (async_loop specHelper tx_ok_reply).2._timeout ≠ tx_ok_reply._rxdelay2 + 3000 := by
  decide

/-- C9, amended: when the buffered line is classified as `ok` and the deadline
has not elapsed, one step of `async_loop` in state `reply_received` with kind
`TX` ends in `wait_for_reply_rx2`, the received line emptied and a deadline of
(receive delay 2 + 3000) modulo 2^32 ms armed from the current clock reading;
with kind `join` the same with a deadline of 10000 ms; in state
`reply_received` with kind `other`, and in state `reply_received_rx2`, the step
ends in `reply_received_finished` with kind `none`. -/
theorem C9_ok_reply (hp : Helper) (s : rn2xx3_handler)
    (hclass : hp.determineReceivedDataType s._receivedData = received_t.ok)
    (hdeadline : sub32 s.millis s._start < s._timeout) :
    (s._state = RN_state.reply_received ∧ s._processing_cmd = Active_cmd.TX →
      (async_loop hp s).1 = RN_state.wait_for_reply_rx2 ∧
      (async_loop hp s).2._state = RN_state.wait_for_reply_rx2 ∧
      (async_loop hp s).2._processing_cmd = Active_cmd.TX ∧
      (async_loop hp s).2._receivedData = [] ∧
      (async_loop hp s).2._timeout = (s._rxdelay2 + 3000) % 2 ^ 32 ∧
      (async_loop hp s).2._start = s.millis) ∧
    (s._state = RN_state.reply_received ∧ s._processing_cmd = Active_cmd.join →
      (async_loop hp s).1 = RN_state.wait_for_reply_rx2 ∧
      (async_loop hp s).2._state = RN_state.wait_for_reply_rx2 ∧
      (async_loop hp s).2._processing_cmd = Active_cmd.join ∧
      (async_loop hp s).2._receivedData = [] ∧
      (async_loop hp s).2._timeout = 10000 ∧
      (async_loop hp s).2._start = s.millis) ∧
    ((s._state = RN_state.reply_received ∧ s._processing_cmd = Active_cmd.other) ∨
        s._state = RN_state.reply_received_rx2 →
      (async_loop hp s).1 = RN_state.reply_received_finished ∧
      (async_loop hp s).2._state = RN_state.reply_received_finished ∧
      (async_loop hp s).2._processing_cmd = Active_cmd.none) := by
  refine ⟨?_, ?_, ?_⟩
  · rintro ⟨hs, hk⟩
    rw [reply_step hp s (Or.inl hs) hdeadline, hclass]
    simp [reply_policy, hs, hk, set_state, set_state_fuel, set_timeout, add32, u32]
  · rintro ⟨hs, hk⟩
    rw [reply_step hp s (Or.inl hs) hdeadline, hclass]
    simp [reply_policy, hs, hk, set_state, set_state_fuel, set_timeout]
  · intro h
    have hs : s._state = RN_state.reply_received ∨
        s._state = RN_state.reply_received_rx2 := by
      rcases h with h | h
      · exact Or.inl h.1
      · exact Or.inr h
    rw [reply_step hp s hs hdeadline, hclass]
    rcases h with ⟨hs1, hk⟩ | hs2
    · simp [reply_policy, hs1, hk, set_state, set_state_fuel]
    · cases hk : s._processing_cmd <;>
        simp [reply_policy, hs2, hk, set_state, set_state_fuel]

/-- Witness of C9, amended: the transmit command of `tx_ok_reply`, with the
largest receive delay 2. -/
theorem C9_ok_reply_witness :
    (async_loop specHelper tx_ok_reply).1 = RN_state.wait_for_reply_rx2 ∧
    (async_loop specHelper tx_ok_reply).2._state = RN_state.wait_for_reply_rx2 ∧
    (async_loop specHelper tx_ok_reply).2._processing_cmd = Active_cmd.TX ∧
    (async_loop specHelper tx_ok_reply).2._receivedData = [] ∧
    (async_loop specHelper tx_ok_reply).2._timeout
      = (tx_ok_reply._rxdelay2 + 3000) % 2 ^ 32 ∧
    (async_loop specHelper tx_ok_reply).2._start = tx_ok_reply.millis :=
  (C9_ok_reply specHelper tx_ok_reply (by decide) (by decide)).1
    ⟨by decide, by decide⟩

/-- C10, the code at one single line `busy`: a join is answered by `ok` and
then by one line `busy`, after which the stream is silent.  The line stays in
the buffer and the state stays `reply_received_rx2`, so every step counts the
same line again: after nine steps the counter is 9, the clock (moved on by the
`delay(1000)` of each step) shows 9190 and the deadline, 10000 ms armed at 30,
has not elapsed; the tenth step, at 9200, ends in `must_perform_init` with the
command given up, though the stream has delivered one line `busy` and not
ten. -/
theorem C10_one_busy_line_escalates :
    join_pending = (exec_join no_wait true (initial 0)).2 ∧
    (drive specHelper (one_busy_line.take 13) join_pending)._state
      = RN_state.reply_received_rx2 ∧
    (drive specHelper (one_busy_line.take 13) join_pending)._processing_cmd
      = Active_cmd.join ∧
    (drive specHelper (one_busy_line.take 13) join_pending)._busy_count = 9 ∧
    (drive specHelper (one_busy_line.take 13) join_pending).millis = 9190 ∧
    (drive specHelper (one_busy_line.take 13) join_pending)._start = 30 ∧
    (drive specHelper (one_busy_line.take 13) join_pending)._timeout = 10000 ∧
    (drive specHelper one_busy_line join_pending)._state = RN_state.must_perform_init ∧
    (drive specHelper one_busy_line join_pending)._processing_cmd = Active_cmd.none ∧
    (drive specHelper one_busy_line join_pending)._serial.rx = [] := by
  decide

/-- C11, as stated, fails: the command `sys get ver` is given at clock reading
0 and the stream stays silent; stepped at 10, 500, 1000, 1500 and 2000 ms, the
handler ends in `timeout` and not in `max_attempt_reached`, and the command was
written once, not ten times. -/
theorem C11_silent_stream_counterexample :
    silent_run._state = RN_state.timeout ∧
    silent_run._state ≠ RN_state.max_attempt_reached ∧
    silent_run._processing_cmd = Active_cmd.none ∧
    silent_run._serial.tx = "sys get ver\r\n".toList := by
  decide

/-- C11, amended: a command is given (by `prepare_raw_command` or by
`prepare_tx_command`) to a handler with no command outstanding and the
invalid-character flag clear, and the stream delivers no byte.  As long as the
steps of `async_loop` are taken less than 1500 ms after the command was given
(the ticks `early`), the command stays pending: it is written by the first of
these steps, once, and the handler waits in `wait_for_reply`.  The first step
taken 1500 ms or more after the command was given (the tick `late`) ends the
command in state `timeout` with kind `none` and writes nothing, so the command
has been written once, or not at all if this is the very first step; what comes
after (`rest`) changes nothing. -/
theorem C11_silent_stream_ends_in_timeout (hp : Helper) (s0 : rn2xx3_handler)
    (command data : Str) (shouldEncode : Bool) (port : Fin 256)
    (early rest : List Tick) (late : Tick)
    (hkind : s0._processing_cmd = Active_cmd.none)
    (hflag : s0._invalid_char_read = false)
    (hearly : ∀ e ∈ early, e.arrived = [] ∧ sub32 e.now s0.millis < 1500)
    (hlate : sub32 late.now s0.millis ≥ 1500) :
    (command ≠ [] →
      (prepare_raw_command command s0).1 = true ∧
      (drive hp early (prepare_raw_command command s0).2)._processing_cmd
        = Active_cmd.other ∧
      (drive hp early (prepare_raw_command command s0).2)._state
        = (if early = [] then RN_state.command_set_to_send
            else RN_state.wait_for_reply) ∧
      (drive hp early (prepare_raw_command command s0).2)._serial.tx
        = (if early = [] then s0._serial.tx
            else s0._serial.tx ++ command ++ ['\r', '\n']) ∧
      (drive hp (early ++ late :: rest) (prepare_raw_command command s0).2)._state
        = RN_state.timeout ∧
      (drive hp (early ++ late :: rest)
        (prepare_raw_command command s0).2)._processing_cmd = Active_cmd.none ∧
      (drive hp (early ++ late :: rest) (prepare_raw_command command s0).2)._serial.tx
        = (if early = [] then s0._serial.tx
            else s0._serial.tx ++ command ++ ['\r', '\n'])) ∧
    (tx_text hp command data shouldEncode port ≠ [] →
      (prepare_tx_command hp command data shouldEncode port s0).1 = true ∧
      (drive hp early
        (prepare_tx_command hp command data shouldEncode port s0).2)._processing_cmd
        = Active_cmd.TX ∧
      (drive hp early (prepare_tx_command hp command data shouldEncode port s0).2)._state
        = (if early = [] then RN_state.command_set_to_send
            else RN_state.wait_for_reply) ∧
      (drive hp early
        (prepare_tx_command hp command data shouldEncode port s0).2)._serial.tx
        = (if early = [] then s0._serial.tx
            else s0._serial.tx ++ tx_text hp command data shouldEncode port
              ++ ['\r', '\n']) ∧
      (drive hp (early ++ late :: rest)
        (prepare_tx_command hp command data shouldEncode port s0).2)._state
        = RN_state.timeout ∧
      (drive hp (early ++ late :: rest)
        (prepare_tx_command hp command data shouldEncode port s0).2)._processing_cmd
        = Active_cmd.none ∧
      (drive hp (early ++ late :: rest)
        (prepare_tx_command hp command data shouldEncode port s0).2)._serial.tx
        = (if early = [] then s0._serial.tx
            else s0._serial.tx ++ tx_text hp command data shouldEncode port
              ++ ['\r', '\n'])) := by
  have key : ∀ (cmd : Str) (kind : Active_cmd), kind ≠ Active_cmd.none →
      ∀ s : rn2xx3_handler, s._processing_cmd = kind → s._state = RN_state.command_set_to_send →
      s._serial.tx = s0._serial.tx →
      silent_pending s0._serial.tx cmd s0.millis 1500 s →
      (drive hp early s)._processing_cmd = kind ∧
      (drive hp early s)._state
        = (if early = [] then RN_state.command_set_to_send
            else RN_state.wait_for_reply) ∧
      (drive hp early s)._serial.tx
        = (if early = [] then s0._serial.tx else s0._serial.tx ++ cmd ++ ['\r', '\n']) ∧
      (drive hp (early ++ late :: rest) s)._state = RN_state.timeout ∧
      (drive hp (early ++ late :: rest) s)._processing_cmd = Active_cmd.none ∧
      (drive hp (early ++ late :: rest) s)._serial.tx
        = (if early = [] then s0._serial.tx
            else s0._serial.tx ++ cmd ++ ['\r', '\n']) := by
    intro cmd kind _ s hk hs htx hpend
    have he := silent_early hp s0._serial.tx cmd s0.millis 1500 early s hpend hearly
    have hl := silent_late hp s0._serial.tx cmd s0.millis 1500 late rest
      (drive hp early s) he.1 hlate
    rw [drive_append]
    by_cases hnil : early = []
    · subst hnil
      simp only [if_true]
      refine ⟨hk, hs, htx, hl.1.1, hl.1.2, ?_⟩
      rw [hl.2]
      exact htx
    · simp only [if_neg hnil]
      refine ⟨he.2.1.trans hk, (he.2.2 hnil).1, (he.2.2 hnil).2, hl.1.1, hl.1.2, ?_⟩
      rw [hl.2]
      exact (he.2.2 hnil).2
  constructor
  · intro hcmd
    rw [prepare_raw_command_accepts s0 command hkind hcmd]
    exact ⟨rfl, key command Active_cmd.other (by decide) _ rfl rfl rfl
      (by simp [silent_pending, hflag])⟩
  · intro hcmd
    rw [prepare_tx_command_eq, prepare_raw_command_accepts s0 _ hkind hcmd]
    exact ⟨rfl, key (tx_text hp command data shouldEncode port) Active_cmd.TX (by decide)
      _ rfl rfl rfl (by simp [silent_pending, hflag])⟩

/-- Witness of C11, amended: the command `sys get ver` on a new handler.  The
steps at 10, 500 and 1000 ms leave it pending, written once; the step at 1500 ms
ends it as `timeout`; the step at 2000 ms changes nothing. -/
theorem C11_silent_stream_ends_in_timeout_witness :
    (prepare_raw_command "sys get ver".toList (initial 0)).1 = true ∧
    (drive specHelper
      [{ now := 10, arrived := [] }, { now := 500, arrived := [] },
       { now := 1000, arrived := [] }]
      (prepare_raw_command "sys get ver".toList (initial 0)).2)._processing_cmd
      = Active_cmd.other ∧
    (drive specHelper
      [{ now := 10, arrived := [] }, { now := 500, arrived := [] },
       { now := 1000, arrived := [] }]
      (prepare_raw_command "sys get ver".toList (initial 0)).2)._state
      = RN_state.wait_for_reply ∧
    (drive specHelper
      [{ now := 10, arrived := [] }, { now := 500, arrived := [] },
       { now := 1000, arrived := [] }]
      (prepare_raw_command "sys get ver".toList (initial 0)).2)._serial.tx
      = "sys get ver\r\n".toList ∧
    silent_run._state = RN_state.timeout ∧
    silent_run._processing_cmd = Active_cmd.none ∧
    silent_run._serial.tx = "sys get ver\r\n".toList :=
  (C11_silent_stream_ends_in_timeout specHelper (initial 0) "sys get ver".toList []
    false 0
    [{ now := 10, arrived := [] }, { now := 500, arrived := [] },
     { now := 1000, arrived := [] }]
    [{ now := 2000, arrived := [] }] { now := 1500, arrived := [] }
    rfl rfl (by decide) (by decide)).1 (by decide)

/-- C12, as stated, fails: the same command is submitted ten times, each time
after the one before has finished, and every submission is answered by
`no_free_ch`; after the tenth the handler is in `duty_cycle_exceeded`, not in
`max_attempt_reached`. -/
theorem C12_ten_no_free_ch_counterexample :
    ten_no_free_ch._state = RN_state.duty_cycle_exceeded ∧
    ten_no_free_ch._state ≠ RN_state.max_attempt_reached ∧
    ten_no_free_ch._processing_cmd = Active_cmd.none := by
  have h := submissions_no_free_ch specHelper "mac tx cnf 1 68656C6C6F".toList
    "no_free_ch\r".toList ten_rounds (initial 0) rfl rfl (by decide) (by decide)
    (by unfold line_body; decide) (by decide) (by decide) (by decide)
  have hs : ten_no_free_ch._state = RN_state.duty_cycle_exceeded := h.1.1
  exact ⟨hs, by rw [hs]; decide, h.1.2⟩

/-- C12, amended: when the same command is submitted any number of times,
once or more, each submission made once the one before has finished and each
answered, within its deadline, by a reply line that is classified as
`no_free_ch`, the state after the last submission has been driven to
completion is `duty_cycle_exceeded`, with kind `none` and the retry counter
back at 0: every submission starts the count anew. -/
theorem C12_no_free_ch_every_time (hp : Helper) (command body : Str)
    (rs : List Round) (s : rn2xx3_handler)
    (hkind : s._processing_cmd = Active_cmd.none)
    (hflag : s._invalid_char_read = false)
    (hcmd : command ≠ [])
    (hnl : hp.valid_char '\n' = true)
    (hbody : ∀ c ∈ body, hp.valid_char c = true ∧ c ≠ '\n' ∧ c.toNat < 256)
    (hclass : hp.determineReceivedDataType (body ++ ['\n']) = received_t.no_free_ch)
    (htime : ∀ r ∈ rs, sub32 r.written r.submitted < 1500 ∧
      sub32 r.delivered r.submitted < 1500 ∧ sub32 r.handled r.submitted < 1500)
    (hrs : rs ≠ []) :
    (submissions hp command (body ++ ['\n']) rs s)._state
      = RN_state.duty_cycle_exceeded ∧
    (submissions hp command (body ++ ['\n']) rs s)._processing_cmd = Active_cmd.none ∧
    (submissions hp command (body ++ ['\n']) rs s)._retry_count = 0 := by
  have h := submissions_no_free_ch hp command body rs s hkind hflag hcmd hnl hbody
    hclass htime hrs
  exact ⟨h.1.1, h.1.2, h.2⟩

/-- Witness of C12, amended: ten submissions, 2000 ms apart, each answered by
`no_free_ch`. -/
theorem C12_no_free_ch_every_time_witness :
    (submissions specHelper "mac tx cnf 1 68656C6C6F".toList
      ("no_free_ch\r".toList ++ ['\n']) ten_rounds (initial 0))._state
      = RN_state.duty_cycle_exceeded ∧
    (submissions specHelper "mac tx cnf 1 68656C6C6F".toList
      ("no_free_ch\r".toList ++ ['\n']) ten_rounds (initial 0))._processing_cmd
      = Active_cmd.none ∧
    (submissions specHelper "mac tx cnf 1 68656C6C6F".toList
      ("no_free_ch\r".toList ++ ['\n']) ten_rounds (initial 0))._retry_count = 0 :=
  C12_no_free_ch_every_time specHelper "mac tx cnf 1 68656C6C6F".toList
    "no_free_ch\r".toList ten_rounds (initial 0) rfl rfl (by decide) (by decide)
    (by decide) (by decide) (by decide) (by decide)

/-- C13, as stated, fails: a command that has been given and not yet written
is in state `command_set_to_send`; with no byte on the stream and the deadline
not elapsed, `async_loop` writes the command and returns `wait_for_reply`, not
the state the handler was in. -/
theorem C13_step_not_idempotent_counterexample :
    (prepare_raw_command "sys get ver".toList (initial 0)).2._state
      = RN_state.command_set_to_send ∧
    (prepare_raw_command "sys get ver".toList (initial 0)).2._serial.rx = [] ∧
    sub32 (prepare_raw_command "sys get ver".toList (initial 0)).2.millis
        (prepare_raw_command "sys get ver".toList (initial 0)).2._start
      < (prepare_raw_command "sys get ver".toList (initial 0)).2._timeout ∧
    (async_loop specHelper (prepare_raw_command "sys get ver".toList (initial 0)).2).1
      = RN_state.wait_for_reply ∧
    (async_loop specHelper (prepare_raw_command "sys get ver".toList (initial 0)).2).1
      ≠ (prepare_raw_command "sys get ver".toList (initial 0)).2._state := by
  decide

/-- C13, amended: in every state other than `command_set_to_send`,
`reply_received` and `reply_received_rx2`, and with the invalid-character flag
clear when the state is `wait_for_reply` or `wait_for_reply_rx2`, a step with no
byte available on the stream and the deadline not elapsed returns the state the
handler was in and changes nothing at all. -/
theorem C13_step_without_bytes (hp : Helper) (s : rn2xx3_handler)
    (hstate : s._state ≠ RN_state.command_set_to_send ∧
      s._state ≠ RN_state.reply_received ∧ s._state ≠ RN_state.reply_received_rx2)
    (hflag : s._state = RN_state.wait_for_reply ∨ s._state = RN_state.wait_for_reply_rx2 →
      s._invalid_char_read = false)
    (hrx : s._serial.rx = [])
    (hdeadline : sub32 s.millis s._start < s._timeout) :
    async_loop hp s = (s._state, s) :=
  idle_step hp s hstate hflag hrx hdeadline

/-- Witness of C13, amended: the handler waits for the reply to `sys get ver`,
which was written at clock reading 10; a step at 500 changes nothing. -/
theorem C13_step_without_bytes_witness :
    (Tick.apply { now := 500, arrived := [] }
      (drive specHelper [{ now := 10, arrived := [] }]
        (prepare_raw_command "sys get ver".toList (initial 0)).2))._state
      = RN_state.wait_for_reply ∧
    async_loop specHelper
      (Tick.apply { now := 500, arrived := [] }
        (drive specHelper [{ now := 10, arrived := [] }]
          (prepare_raw_command "sys get ver".toList (initial 0)).2))
      = (RN_state.wait_for_reply,
          Tick.apply { now := 500, arrived := [] }
            (drive specHelper [{ now := 10, arrived := [] }]
              (prepare_raw_command "sys get ver".toList (initial 0)).2)) :=
  ⟨by decide,
    C13_step_without_bytes specHelper
      (Tick.apply { now := 500, arrived := [] }
        (drive specHelper [{ now := 10, arrived := [] }]
          (prepare_raw_command "sys get ver".toList (initial 0)).2))
      (by decide) (by decide) (by decide) (by decide)⟩

/-- C15: when no command is outstanding, `prepare_raw_command` with the empty
text returns false and leaves the handler in state `idle` with kind `none` and
with the pending text, the received line, the last downlink and the error log
empty (the counters, the deadline start and the invalid-character flag are
reset as well).  The stream is as before. -/
theorem C15_prepare_raw_command_empty (s : rn2xx3_handler)
    (hkind : s._processing_cmd = Active_cmd.none) :
    prepare_raw_command [] s =
      (false, { s with
        _state := RN_state.idle
        _processing_cmd := Active_cmd.none
        _sendData := []
        _receivedData := []
        _rxMessenge := []
        _lastError := []
        _busy_count := 0
        _retry_count := 0
        _start := 0
        _invalid_char_read := false }) := by
  simp [prepare_raw_command, command_finished, set_state, set_state_fuel, hkind]

/-- Witness of C15: the handler that has finished the downlink of
`downlink_run`, its buffers filled, is given the empty text. -/
theorem C15_prepare_raw_command_empty_witness :
    downlink_run._processing_cmd = Active_cmd.none ∧
    downlink_run._rxMessenge ≠ [] ∧
    prepare_raw_command [] downlink_run =
      (false, { downlink_run with
        _state := RN_state.idle
        _processing_cmd := Active_cmd.none
        _sendData := []
        _receivedData := []
        _rxMessenge := []
        _lastError := []
        _busy_count := 0
        _retry_count := 0
        _start := 0
        _invalid_char_read := false }) :=
  ⟨by decide, by decide, C15_prepare_raw_command_empty downlink_run (by decide)⟩

/-- C16: `getLastError` returns the error log and leaves it empty, nothing
else changed, so that a second `getLastError` and a `peekLastError` return the
empty text; `peekLastError` returns the error log and, being a function of the
handler only, changes nothing. -/
theorem C16_error_log_accessors (s : rn2xx3_handler) :
    (getLastError s).1 = s._lastError ∧
    (getLastError s).2 = { s with _lastError := [] } ∧
    (getLastError (getLastError s).2).1 = [] ∧
    peekLastError (getLastError s).2 = [] ∧
    peekLastError s = s._lastError ∧
    (getLastError s).1 = peekLastError s := by
  simp [getLastError, peekLastError]

/-- C17: in state `command_set_to_send`, with the retry counter below 10 and
the deadline not elapsed, one step of `async_loop` discards the bytes available
on the stream, empties the received line, writes the pending command text
followed by carriage return and line feed and nothing else, adds one to the
retry counter and returns `wait_for_reply`; no other member changes.  (This is
so whatever the kind is.) -/
theorem C17_send_step (hp : Helper) (s : rn2xx3_handler)
    (hs : s._state = RN_state.command_set_to_send)
    (hr : s._retry_count < 10)
    (hdeadline : sub32 s.millis s._start < s._timeout) :
    async_loop hp s =
      (RN_state.wait_for_reply, { s with
        _state := RN_state.wait_for_reply
        _retry_count := s._retry_count + 1
        _receivedData := []
        _serial := { rx := [], tx := s._serial.tx ++ s._sendData ++ ['\r', '\n'] } }) := by
  rw [async_loop_unexpired hp s hdeadline, dispatch_send hp s hs hr]

/-- Witness of C17: the command `sys get ver` on a new handler, stale bytes
waiting on the stream, stepped 10 ms after the command was given. -/
theorem C17_send_step_witness :
    (async_loop specHelper
      (Tick.apply { now := 10, arrived := [120, 121] }
        (prepare_raw_command "sys get ver".toList (initial 0)).2)).1
      = RN_state.wait_for_reply ∧
    (async_loop specHelper
      (Tick.apply { now := 10, arrived := [120, 121] }
        (prepare_raw_command "sys get ver".toList (initial 0)).2)).2._serial
      = { rx := [], tx := "sys get ver\r\n".toList } ∧
    async_loop specHelper
      (Tick.apply { now := 10, arrived := [120, 121] }
        (prepare_raw_command "sys get ver".toList (initial 0)).2) =
      (RN_state.wait_for_reply,
        { Tick.apply { now := 10, arrived := [120, 121] }
            (prepare_raw_command "sys get ver".toList (initial 0)).2 with
          _state := RN_state.wait_for_reply
          _retry_count := 1
          _receivedData := []
          _serial := { rx := [], tx := "sys get ver\r\n".toList } }) :=
  ⟨by decide, by decide,
    C17_send_step specHelper
      (Tick.apply { now := 10, arrived := [120, 121] }
        (prepare_raw_command "sys get ver".toList (initial 0)).2)
      (by decide) (by decide) (by decide)⟩

/-- C19, as stated, fails: with verbose logging off `setLastError` replaces the
log, so that after `setLastError` of `second` the earlier content `first` is no
beginning of the log; and `set_state` to `idle` empties the log. -/
theorem C19_log_replaced_counterexample :
    logged_first._lastError = "first".toList ∧
    (setLastError "second".toList logged_first)._lastError = "second".toList ∧
    ("first".toList).isPrefixOf
      (setLastError "second".toList logged_first)._lastError = false ∧
    (set_state RN_state.idle logged_first)._lastError = [] ∧
    ("first".toList).isPrefixOf
      (set_state RN_state.idle logged_first)._lastError = false := by
  decide

/-- C19, amended: with verbose logging on, `setLastError` of `e` leaves the
log as the earlier log followed by a line feed, the clock reading, ` : ` and
`e`; with verbose logging off the log is `e` alone.  `set_state`,
`prepare_raw_command` and `prepare_tx_command` leave the log as it was, unless
they take the handler to `idle`, where the log is emptied; with verbose logging
on, `async_loop` leaves the earlier log at the beginning of the log, unless it
takes the handler to `idle` and empties the log. -/
theorem C19_error_log_growth (hp : Helper) (s : rn2xx3_handler) (e : Str)
    (st : RN_state) (command data : Str) (shouldEncode : Bool) (port : Fin 256) :
    (s._extensive_debug = true →
      (setLastError e s)._lastError =
        s._lastError ++ ['\n'] ++ decimal s.millis ++ " : ".toList ++ e) ∧
    (s._extensive_debug = false → (setLastError e s)._lastError = e) ∧
    (((set_state st s)._state = RN_state.idle ∧ (set_state st s)._lastError = []) ∨
      (set_state st s)._lastError = s._lastError) ∧
    (((prepare_raw_command command s).2._state = RN_state.idle ∧
        (prepare_raw_command command s).2._lastError = []) ∨
      (prepare_raw_command command s).2._lastError = s._lastError) ∧
    (((prepare_tx_command hp command data shouldEncode port s).2._state = RN_state.idle ∧
        (prepare_tx_command hp command data shouldEncode port s).2._lastError = []) ∨
      (prepare_tx_command hp command data shouldEncode port s).2._lastError
        = s._lastError) ∧
    (s._extensive_debug = true →
      ((async_loop hp s).2._state = RN_state.idle ∧
        (async_loop hp s).2._lastError = []) ∨
      ∃ t, (async_loop hp s).2._lastError = s._lastError ++ t) := by
  have hraw : ∀ c : Str,
      ((prepare_raw_command c s).2._state = RN_state.idle ∧
        (prepare_raw_command c s).2._lastError = []) ∨
      (prepare_raw_command c s).2._lastError = s._lastError := by
    intro c
    unfold prepare_raw_command
    split
    · exact Or.inr rfl
    · exact set_state_log RN_state.command_set_to_send _
  refine ⟨(setLastError_log e s).1, (setLastError_log e s).2, set_state_log st s,
    hraw command, ?_, async_loop_log hp s⟩
  rw [prepare_tx_command_eq]
  split
  · next h =>
    have h1 := prepare_raw_command_true _ s h
    rcases hraw (tx_text hp command data shouldEncode port) with h2 | h2
    · rw [h1] at h2
      exact absurd h2.1 (by decide)
    · exact Or.inr h2
  · exact hraw _

/-- Witness of C19, amended: a handler with verbose logging on and the log
`first`, at clock reading 42. -/
theorem C19_error_log_growth_witness :
    (setLastError "second".toList
      { logged_first with _extensive_debug := true, millis := 42 })._lastError
      = "first\n42 : second".toList :=
  (C19_error_log_growth specHelper
    { logged_first with _extensive_debug := true, millis := 42 } "second".toList
    RN_state.idle [] [] false 0).1 rfl

/-- C20: when the kind is not `none` before `set_state` and `none` after it,
the retry counter and the busy counter are 0 and the invalid-character flag is
false after the call; a call of `set_state` that leaves the kind not `none`
leaves the two counters and the flag as they were. -/
theorem C20_set_state_counters (st : RN_state) (s : rn2xx3_handler) :
    (s._processing_cmd ≠ Active_cmd.none →
      (set_state st s)._processing_cmd = Active_cmd.none →
      (set_state st s)._retry_count = 0 ∧ (set_state st s)._busy_count = 0 ∧
      (set_state st s)._invalid_char_read = false) ∧
    ((set_state st s)._processing_cmd ≠ Active_cmd.none →
      (set_state st s)._retry_count = s._retry_count ∧
      (set_state st s)._busy_count = s._busy_count ∧
      (set_state st s)._invalid_char_read = s._invalid_char_read) := by
  cases st <;> cases hk : s._processing_cmd <;>
    simp [set_state, set_state_fuel, set_timeout, hk] <;>
    (try split) <;> simp_all

/-- C14, the code at one invalid byte: the generic command `sys get ver` is
written, the byte 0xFF arrives, and the command is written again; the module
then answers `ok`.  The line is read completely, but the invalid-character flag
is still set and the step goes back to `command_set_to_send` instead of
`reply_received`; this repeats with every write, until the command has been
written ten times and the handler ends in `max_attempt_reached`, not in
`reply_received_finished`, the received line empty. -/
theorem C14_framing_error_not_recovered :
    (drive specHelper (framing_error_ticks.take 2) pending_sys_get_ver)._state
      = RN_state.command_set_to_send ∧
    (drive specHelper (framing_error_ticks.take 2) pending_sys_get_ver)._invalid_char_read
      = true ∧
    (drive specHelper (framing_error_ticks.take 3) pending_sys_get_ver)._serial.tx
      = "sys get ver\r\nsys get ver\r\n".toList ∧
    (drive specHelper (framing_error_ticks.take 4) pending_sys_get_ver)._receivedData
      = "ok\r\n".toList ∧
    (drive specHelper (framing_error_ticks.take 4) pending_sys_get_ver)._state
      = RN_state.command_set_to_send ∧
    (drive specHelper (framing_error_ticks.take 4) pending_sys_get_ver)._invalid_char_read
      = true ∧
    (drive specHelper framing_error_ticks pending_sys_get_ver)._state
      = RN_state.max_attempt_reached ∧
    (drive specHelper framing_error_ticks pending_sys_get_ver)._state
      ≠ RN_state.reply_received_finished ∧
    (drive specHelper framing_error_ticks pending_sys_get_ver)._receivedData = [] ∧
    (drive specHelper framing_error_ticks pending_sys_get_ver)._serial.tx
      = written [] "sys get ver".toList 10 := by
  decide

/-- C18, as stated, fails in its second part: after ten writes of a generic
command (the run of `framing_error_ticks`) the handler is in
`command_set_to_send` with the retry counter at 10; a step taken 4800 ms later,
the deadline of 1500 ms elapsed, writes nothing and ends in `timeout`, not in
`max_attempt_reached`. -/
theorem C18_retry_cap_counterexample :
    (Tick.apply { now := 5000, arrived := [] }
      (drive specHelper (framing_error_ticks.take 20) pending_sys_get_ver))._state
      = RN_state.command_set_to_send ∧
    (Tick.apply { now := 5000, arrived := [] }
      (drive specHelper (framing_error_ticks.take 20) pending_sys_get_ver))._retry_count
      = 10 ∧
    (async_loop specHelper
      (Tick.apply { now := 5000, arrived := [] }
        (drive specHelper (framing_error_ticks.take 20) pending_sys_get_ver))).1
      = RN_state.timeout ∧
    (async_loop specHelper
      (Tick.apply { now := 5000, arrived := [] }
        (drive specHelper (framing_error_ticks.take 20) pending_sys_get_ver))).1
      ≠ RN_state.max_attempt_reached := by
  decide

/-- C18, amended: from the submission of a command (by `prepare_raw_command`
or by `prepare_tx_command`) until the kind is `none` again, whatever the stream
delivers and the clock shows, the stream output grows by `k` copies of the
command text with its line end, for a `k` of at most 10, and by nothing else.
A step taken in `command_set_to_send` when the retry counter is 10 leaves the
stream as it is; it ends in `max_attempt_reached` when the deadline has not
elapsed (or no command is outstanding), and in `timeout` when a command is
outstanding and the deadline has elapsed. -/
theorem C18_retry_cap (hp : Helper) (s0 s : rn2xx3_handler) (command data : Str)
    (shouldEncode : Bool) (port : Fin 256) (ts : List Tick)
    (hkind : s0._processing_cmd = Active_cmd.none) :
    (command ≠ [] →
      ∃ k, k ≤ 10 ∧
        (drive hp ts (prepare_raw_command command s0).2)._serial.tx =
          s0._serial.tx ++ (List.replicate k (command ++ ['\r', '\n'])).flatten) ∧
    (tx_text hp command data shouldEncode port ≠ [] →
      ∃ k, k ≤ 10 ∧
        (drive hp ts (prepare_tx_command hp command data shouldEncode port s0).2)._serial.tx =
          s0._serial.tx ++
            (List.replicate k
              (tx_text hp command data shouldEncode port ++ ['\r', '\n'])).flatten) ∧
    (s._state = RN_state.command_set_to_send → s._retry_count = 10 →
      (async_loop hp s).2._serial = s._serial ∧
      (s._processing_cmd = Active_cmd.none ∨ sub32 s.millis s._start < s._timeout →
        (async_loop hp s).1 = RN_state.max_attempt_reached) ∧
      (s._processing_cmd ≠ Active_cmd.none ∧ sub32 s.millis s._start ≥ s._timeout →
        (async_loop hp s).1 = RN_state.timeout)) := by
  refine ⟨fun hcmd => ?_, fun hcmd => ?_, fun hs hr => ?_⟩
  · rw [prepare_raw_command_accepts s0 command hkind hcmd]
    obtain ⟨k, hk, htx, _⟩ := drive_write_count hp s0._serial.tx command ts
      { s0 with
        _state := RN_state.command_set_to_send
        _processing_cmd := Active_cmd.other
        _sendData := command
        _busy_count := 0
        _retry_count := 0
        _start_prep := s0.millis
        _timeout := 1500
        _start := s0.millis }
      ⟨0, by omega, by simp [written], fun _ => ⟨rfl, rfl⟩⟩
    exact ⟨k, hk, htx⟩
  · rw [prepare_tx_command_eq, prepare_raw_command_accepts s0 _ hkind hcmd]
    obtain ⟨k, hk, htx, _⟩ := drive_write_count hp s0._serial.tx
      (tx_text hp command data shouldEncode port) ts
      { s0 with
        _state := RN_state.command_set_to_send
        _processing_cmd := Active_cmd.TX
        _sendData := tx_text hp command data shouldEncode port
        _busy_count := 0
        _retry_count := 0
        _start_prep := s0.millis
        _timeout := 1500
        _start := s0.millis }
      ⟨0, by omega, by simp [written], fun _ => ⟨rfl, rfl⟩⟩
    exact ⟨k, hk, htx⟩
  · have hcap : dispatch hp s =
        set_state RN_state.max_attempt_reached
          { s with _retry_count := s._retry_count + 1 } := by
      simp [dispatch, hs, hr]
    have hmax : (dispatch hp s)._state = RN_state.max_attempt_reached ∧
        (dispatch hp s)._serial = s._serial := by
      rw [hcap]
      cases hk : s._processing_cmd <;> simp [set_state, set_state_fuel, hk]
    by_cases hexp : s._processing_cmd ≠ Active_cmd.none ∧ sub32 s.millis s._start ≥ s._timeout
    · have hne : s._state ≠ RN_state.must_pause := by rw [hs]; decide
      rw [async_loop_expired hp s hexp.1 hne hexp.2]
      refine ⟨rfl, fun h => ?_, fun _ => rfl⟩
      rcases h with h | h
      · exact absurd h hexp.1
      · omega
    · have hd : deadline_check s = s := by
        unfold deadline_check
        rw [if_pos (by rw [hs]; decide)]
        apply if_neg
        intro hc
        simp only [command_finished, time_out_reached, Bool.and_eq_true, Bool.not_eq_true',
          decide_eq_false_iff_not, decide_eq_true_eq] at hc
        exact hexp ⟨hc.1, hc.2⟩
      rw [async_loop_eq, hd]
      exact ⟨hmax.2, fun _ => hmax.1, fun h => absurd h hexp⟩

/-- Witness of C18, amended: the run of `framing_error_ticks`, in which the
command is written ten times and the step at retry counter 10 ends in
`max_attempt_reached`. -/
theorem C18_retry_cap_witness :
    (∃ k, k ≤ 10 ∧
      (drive specHelper framing_error_ticks
        (prepare_raw_command "sys get ver".toList (initial 0)).2)._serial.tx =
        (initial 0)._serial.tx ++
          (List.replicate k ("sys get ver".toList ++ ['\r', '\n'])).flatten) ∧
    (async_loop specHelper
      (Tick.apply { now := 210, arrived := [] }
        (drive specHelper (framing_error_ticks.take 20) pending_sys_get_ver))).1
      = RN_state.max_attempt_reached :=
  ⟨(C18_retry_cap specHelper (initial 0) (initial 0) "sys get ver".toList [] false 0
      framing_error_ticks rfl).1 (by decide),
    ((C18_retry_cap specHelper (initial 0)
      (Tick.apply { now := 210, arrived := [] }
        (drive specHelper (framing_error_ticks.take 20) pending_sys_get_ver))
      [] [] false 0 [] rfl).2.2 (by decide) (by decide)).2.1 (Or.inr (by decide))⟩

/-- Witness of C20: a generic command that has been written three times, the
invalid-character flag set.  `set_state` to `timeout` ends the command and
resets the counters and the flag; `set_state` to `invalid_char_read` submits the
command again, the kind stays `other`, and counters and flag are as before. -/
theorem C20_set_state_counters_witness :
    ((set_state RN_state.timeout
        (drive specHelper (framing_error_ticks.take 5) pending_sys_get_ver))._retry_count
        = 0 ∧
      (set_state RN_state.timeout
        (drive specHelper (framing_error_ticks.take 5) pending_sys_get_ver))._busy_count
        = 0 ∧
      (set_state RN_state.timeout
        (drive specHelper (framing_error_ticks.take 5)
          pending_sys_get_ver))._invalid_char_read = false) ∧
    ((set_state RN_state.invalid_char_read
        (drive specHelper (framing_error_ticks.take 5) pending_sys_get_ver))._retry_count
        = (drive specHelper (framing_error_ticks.take 5) pending_sys_get_ver)._retry_count ∧
      (set_state RN_state.invalid_char_read
        (drive specHelper (framing_error_ticks.take 5) pending_sys_get_ver))._busy_count
        = (drive specHelper (framing_error_ticks.take 5) pending_sys_get_ver)._busy_count ∧
      (set_state RN_state.invalid_char_read
        (drive specHelper (framing_error_ticks.take 5)
          pending_sys_get_ver))._invalid_char_read
        = (drive specHelper (framing_error_ticks.take 5)
          pending_sys_get_ver)._invalid_char_read) :=
  ⟨(C20_set_state_counters RN_state.timeout
      (drive specHelper (framing_error_ticks.take 5) pending_sys_get_ver)).1
      (by decide) (by decide),
    (C20_set_state_counters RN_state.invalid_char_read
      (drive specHelper (framing_error_ticks.take 5) pending_sys_get_ver)).2
      (by decide)⟩

/-- C21: in state `reply_received` or `reply_received_rx2`, when the buffered
line is classified as `radio_rx` or `radio_tx_ok` and verbose logging is off, a
step of `async_loop` taken before the deadline has elapsed returns the state
the handler is in and changes nothing at all.  So the same line is handled
again by every step: while the steps are taken before the deadline, state,
kind and received line stay as they are, whatever the stream delivers; a
command that is outstanding comes to its end only as `timeout`, at the first
step taken once the deadline has elapsed. -/
theorem C21_reply_without_action (hp : Helper) (s : rn2xx3_handler) (ts : List Tick)
    (hs : s._state = RN_state.reply_received ∨ s._state = RN_state.reply_received_rx2)
    (hclass : hp.determineReceivedDataType s._receivedData = received_t.radio_rx ∨
      hp.determineReceivedDataType s._receivedData = received_t.radio_tx_ok)
    (hdebug : s._extensive_debug = false) :
    (sub32 s.millis s._start < s._timeout → async_loop hp s = (s._state, s)) ∧
    (s._processing_cmd ≠ Active_cmd.none →
      ((∀ e ∈ ts, sub32 e.now s._start < s._timeout) →
        (drive hp ts s)._state = s._state ∧
        (drive hp ts s)._processing_cmd = s._processing_cmd ∧
        (drive hp ts s)._receivedData = s._receivedData) ∧
      ((∃ e ∈ ts, sub32 e.now s._start ≥ s._timeout) →
        (drive hp ts s)._state = RN_state.timeout ∧
        (drive hp ts s)._processing_cmd = Active_cmd.none) ∧
      ((drive hp ts s)._processing_cmd = Active_cmd.none →
        (drive hp ts s)._state = RN_state.timeout)) := by
  refine ⟨fun hdeadline => unhandled_step hp s hs hclass hdebug hdeadline, fun hkind => ?_⟩
  have h := unhandled_drive hp s._start s._timeout ts s ⟨hs, hclass, hdebug, rfl, rfl⟩ hkind
  exact ⟨h.1, fun hl => ⟨(h.2.1 hl).1, (h.2.1 hl).2⟩, h.2.2⟩

/-- Witness of C21: the reply `radio_tx_ok` to a generic command.  A step at
clock reading 60 changes nothing; steps at 100, 700 and 1400 leave the handler
in `reply_received`, and the step at 1500 ends the command as `timeout`. -/
theorem C21_reply_without_action_witness :
    radio_reply._state = RN_state.reply_received ∧
    radio_reply._receivedData = "radio_tx_ok\r\n".toList ∧
    async_loop specHelper radio_reply = (radio_reply._state, radio_reply) ∧
    (drive specHelper
      [{ now := 100, arrived := [] }, { now := 700, arrived := [] },
       { now := 1400, arrived := [] }, { now := 1500, arrived := [] }]
      radio_reply)._state = RN_state.timeout ∧
    (drive specHelper
      [{ now := 100, arrived := [] }, { now := 700, arrived := [] },
       { now := 1400, arrived := [] }, { now := 1500, arrived := [] }]
      radio_reply)._processing_cmd = Active_cmd.none :=
  ⟨by decide, by decide,
    (C21_reply_without_action specHelper radio_reply [] (by decide) (by decide)
      (by decide)).1 (by decide),
    (((C21_reply_without_action specHelper radio_reply
      [{ now := 100, arrived := [] }, { now := 700, arrived := [] },
       { now := 1400, arrived := [] }, { now := 1500, arrived := [] }]
      (by decide) (by decide) (by decide)).2 (by decide)).2.1 (by decide)).1,
    (((C21_reply_without_action specHelper radio_reply
      [{ now := 100, arrived := [] }, { now := 700, arrived := [] },
       { now := 1400, arrived := [] }, { now := 1500, arrived := [] }]
      (by decide) (by decide) (by decide)).2 (by decide)).2.1 (by decide)).2⟩

/-- C22: the check of the deadline is right across the wrap-around of the
32-bit clock.  For a deadline armed at clock reading `s` with a duration of `d`
ms, and a time `e` below 2^32 ms that has truly passed since, so that the clock
reads (s + e) mod 2^32, `time_out_reached` is true if and only if `e ≥ d`; this
is so for a handler with these members, and so for the handler that
`set_timeout` leaves. -/
theorem C22_deadline_wrap_around (h : rn2xx3_handler) (s d e : Nat)
    (hs : s < 2 ^ 32) (he : e < 2 ^ 32) :
    (h._start = s → h._timeout = d → h.millis = (s + e) % 2 ^ 32 →
      (time_out_reached h = true ↔ e ≥ d)) ∧
    (h.millis = s →
      (time_out_reached
        { set_timeout d h with millis := (s + e) % 2 ^ 32 } = true ↔ e ≥ d)) := by
  constructor
  · intro hstart htmo hclock
    simp only [time_out_reached, decide_eq_true_eq, hstart, htmo, hclock,
      sub32_elapsed s e hs he]
  · intro hclock
    simp only [time_out_reached, set_timeout, decide_eq_true_eq, hclock,
      sub32_elapsed s e hs he]

/-- Witness of C22: a deadline of 1500 ms armed 296 ms before the clock wraps
around is reached when the clock reads 1204, that is after 1500 ms, and not yet
when it reads 1203. -/
theorem C22_deadline_wrap_around_witness :
    (time_out_reached wrapped_deadline = true ↔ 1500 ≥ 1500) ∧
    (time_out_reached { wrapped_deadline with millis := 1203 } = true ↔ 1499 ≥ 1500) :=
  ⟨(C22_deadline_wrap_around wrapped_deadline 4294967000 1500 1500 (by decide)
      (by decide)).1 (by decide) (by decide) (by decide),
    (C22_deadline_wrap_around { wrapped_deadline with millis := 1203 } 4294967000 1500
      1499 (by decide) (by decide)).1 (by decide) (by decide) (by decide)⟩

end RN2483
